import Mathlib

/-!
Verification development for the `aicrm` repository.

The repository consists of two Python client programs:

* `src/odoo_api_demo.py` — an Odoo CRM RPC client (`class OdooAPI`) with two
  transports (XML-RPC and JSON-RPC), authentication, an `execute` primitive,
  derived single-record CRUD operations, search / search-read operations, and
  best-effort batch operations.
* `src/chatbot.py` — a Streamlit lead-capture chatbot whose extraction step
  locates the first brace-delimited substring of a generated text with the
  regex `\{.*\}` (DOTALL, greedy) and feeds it to `json.loads`, then performs
  one XML-RPC authenticate plus one `crm.lead` create call.

The development below is a shallow embedding of that code.  Python values
flowing through the RPC layer are modelled by the inductive type `Val` with
Python truthiness `truthy`; the external transports (the only effectful /
fallible parts) are modelled as explicit function records whose calls either
return a value or raise (`TResult.exn` / `HttpResult.exn`); the mutable
`OdooAPI` object is threaded explicitly as a state record.  Every function is
translated line-by-line from the source; deviations forced by the modelling
(e.g. the log statements, which are observationally irrelevant) are noted in
the doc comments.
-/

/-- A dynamically typed Python value as it flows through the RPC layer:
`None`, booleans, integers, strings, lists and (string-keyed) dicts. -/
inductive Val : Type where
  | vnull : Val
  | vbool : Bool → Val
  | vint : Int → Val
  | vstr : String → Val
  | vlist : List Val → Val
  | vdict : List (String × Val) → Val

/-- Python truthiness (`bool(v)`): `None`/`False`/`0`/`""`/`[]`/`{}` are
falsy, everything else truthy. -/
def truthy : Val → Bool
  | Val.vnull => false
  | Val.vbool b => b
  | Val.vint n => n != 0
  | Val.vstr s => s.length != 0
  | Val.vlist l => l.length != 0
  | Val.vdict l => l.length != 0

/-- Python `len(v)`: defined for strings, lists and dicts; `none` models the
`TypeError` raised on other values (in particular on `None`). -/
def pyLen : Val → Option Nat
  | Val.vstr s => some s.length
  | Val.vlist l => some l.length
  | Val.vdict l => some l.length
  | _ => none

/-- Lookup in an association list representing a Python dict. -/
def alistGet : List (String × Val) → String → Option Val
  | [], _ => none
  | (k, v) :: rest, key => if k = key then some v else alistGet rest key

/-- Python `key in d` / `d[key]` on a dict value; `none` when the key is
absent or the value is not a dict (in which case `d[key]` raises, which every
call site of this repository catches). -/
def dictGet : Val → String → Option Val
  | Val.vdict l, key => alistGet l key
  | _, _ => none

/-- Python `d.get(key)`: `None` default. -/
def pyGet (v : Val) (key : String) : Val :=
  match dictGet v key with
  | some x => x
  | none => Val.vnull

/-- Python `d.get(key, default)`. -/
def pyGetDefault (v : Val) (key : String) (dflt : Val) : Val :=
  match dictGet v key with
  | some x => x
  | none => dflt

/-- Python `lst[0]` on the values this repository indexes (`lead_data[0]` in
the read operations, reached only under `len(lead_data) > 0`). -/
def pyIndexZero : Val → Val
  | Val.vlist (x :: _) => x
  | _ => Val.vnull

/-- Result of one external RPC transport call: a returned value or a raised
exception. -/
inductive TResult : Type where
  | ok : Val → TResult
  | exn : TResult

/-- The XML-RPC transport: behaviour of `ServerProxy.authenticate` (on the
`common` endpoint, as a function of db, username, password) and of
`ServerProxy.execute_kw` (on the `object` endpoint, as a function of db, uid,
password, model, method and positional args). -/
structure XmlrpcTransport : Type where
  auth : String → String → String → TResult
  execute_kw : String → Val → String → String → String → List Val → TResult

/-- Result of one `requests.post` call: a raised exception, or a response
with a status code, the behaviour of `response.json()` (`jsonExn = true`
models `.json()` raising on a malformed body, otherwise `body` is the parsed
JSON), and the `session_id` cookie (`vnull` when absent). -/
inductive HttpResult : Type where
  | exn : HttpResult
  | resp : Nat → Bool → Val → Val → HttpResult

/-- The JSON-RPC transport: behaviour of the login post (function of db,
username, password) and of the `execute_kw` post (function of db, uid,
password, model, method, positional args and the `session_id` cookie sent,
`vnull` when no cookie was attached). -/
structure JsonrpcTransport : Type where
  login : String → String → String → HttpResult
  call : String → Val → String → String → String → List Val → Val → HttpResult

/-- Python `url.rstrip('/')`. -/
def rstripSlash (s : String) : String :=
  String.mk ((s.data.reverse.dropWhile (fun c => c == '/')).reverse)

/-- The mutable state of an `OdooAPI` instance (`src/odoo_api_demo.py`
lines 49-70).  The two `ServerProxy` handles are modelled by booleans
recording whether they have been set (the code only ever tests them for
`None`-ness). -/
structure OdooAPI : Type where
  url : String
  db : String
  username : String
  password : String
  uid : Val
  xmlrpc_common : Bool
  xmlrpc_models : Bool
  jsonrpc_url : String
  session_id : Val

/-- `OdooAPI.__init__` (lines 49-70). -/
def OdooAPI.init (url db username password : String) : OdooAPI :=
  { url := rstripSlash url
    db := db
    username := username
    password := password
    uid := Val.vnull
    xmlrpc_common := false
    xmlrpc_models := false
    jsonrpc_url := rstripSlash url ++ "/jsonrpc"
    session_id := Val.vnull }

/-- `OdooAPI.xmlrpc_authenticate` (lines 72-94).  The `ServerProxy`
construction is modelled as always succeeding; the `authenticate` RPC call is
the fallible step.  Note that `self.uid` is assigned the transport's result
even when that result is falsy. -/
def xmlrpc_authenticate (t : XmlrpcTransport) (s : OdooAPI) : Bool × OdooAPI :=
  let s1 := { s with xmlrpc_common := true }
  match t.auth s1.db s1.username s1.password with
  | TResult.exn => (false, s1)
  | TResult.ok v =>
    let s2 := { s1 with uid := v }
    if truthy v then (true, { s2 with xmlrpc_models := true })
    else (false, s2)

/-- `OdooAPI.jsonrpc_authenticate` (lines 96-138). -/
def jsonrpc_authenticate (t : JsonrpcTransport) (s : OdooAPI) : Bool × OdooAPI :=
  match t.login s.db s.username s.password with
  | HttpResult.exn => (false, s)
  | HttpResult.resp status jsonExn body cookie =>
    if status = 200 then
      if jsonExn then (false, s)
      else
        match dictGet body "result" with
        | some v =>
          if truthy v then (true, { s with uid := v, session_id := cookie })
          else (false, s)
        | none => (false, s)
    else (false, s)

/-- `OdooAPI.xmlrpc_execute` (lines 140-164): implicit re-authentication when
`not self.uid or not self.xmlrpc_models`, then `execute_kw`; any exception is
caught and converted to `None`. -/
def xmlrpc_execute (t : XmlrpcTransport) (s : OdooAPI) (model method : String)
    (args : List Val) : Val × OdooAPI :=
  let p := if !truthy s.uid || !s.xmlrpc_models then xmlrpc_authenticate t s else (true, s)
  if p.1 then
    match t.execute_kw p.2.db p.2.uid p.2.password model method args with
    | TResult.ok v => (v, p.2)
    | TResult.exn => (Val.vnull, p.2)
  else (Val.vnull, p.2)

/-- `OdooAPI.jsonrpc_execute` (lines 166-218): implicit re-authentication
when `not self.uid`; the post carries the `session_id` cookie when one is
set; a 200 response with a `result` key returns that value verbatim, an
`error` key (or a fall-through with neither key), a non-200 status, a
`.json()` failure or a raised exception all yield `None`.  The payload `id`
field (`int(time.time())`) is not observable through the transport interface
and is omitted. -/
def jsonrpc_execute (t : JsonrpcTransport) (s : OdooAPI) (model method : String)
    (args : List Val) : Val × OdooAPI :=
  let p := if !truthy s.uid then jsonrpc_authenticate t s else (true, s)
  if p.1 then
    let cookie := if truthy p.2.session_id then p.2.session_id else Val.vnull
    match t.call p.2.db p.2.uid p.2.password model method args cookie with
    | HttpResult.exn => (Val.vnull, p.2)
    | HttpResult.resp status jsonExn body _ =>
      if status = 200 then
        if jsonExn then (Val.vnull, p.2)
        else
          match dictGet body "result" with
          | some v => (v, p.2)
          | none => (Val.vnull, p.2)
      else (Val.vnull, p.2)
  else (Val.vnull, p.2)

/-- `OdooAPI.create_lead_xmlrpc` (lines 222-240): dispatches
`execute('crm.lead', 'create', [lead_data])` and returns the result
verbatim; the surrounding `try/except` is unreachable because
`xmlrpc_execute` never raises. -/
def create_lead_xmlrpc (t : XmlrpcTransport) (s : OdooAPI) (lead_data : Val) :
    Val × OdooAPI :=
  xmlrpc_execute t s "crm.lead" "create" [Val.vlist [lead_data]]

/-- `OdooAPI.create_lead_jsonrpc` (lines 242-260). -/
def create_lead_jsonrpc (t : JsonrpcTransport) (s : OdooAPI) (lead_data : Val) :
    Val × OdooAPI :=
  jsonrpc_execute t s "crm.lead" "create" [Val.vlist [lead_data]]

/-- Python `fields if fields is not None else []` as performed by the read
and search-read operations (`if fields is None: fields = []`). -/
def fieldsOrEmpty : Val → Val
  | Val.vnull => Val.vlist []
  | f => f

/-- `OdooAPI.read_lead_xmlrpc` (lines 262-286): returns `lead_data[0]` when
the result is truthy with positive length, `None` otherwise; a `len` or
indexing `TypeError` inside the `try` is caught and also yields `None`. -/
def read_lead_xmlrpc (t : XmlrpcTransport) (s : OdooAPI) (lead_id : Int)
    (fields : Val) : Val × OdooAPI :=
  let f := fieldsOrEmpty fields
  let p := xmlrpc_execute t s "crm.lead" "read"
    [Val.vlist [Val.vint lead_id], Val.vdict [("fields", f)]]
  if truthy p.1 then
    match pyLen p.1 with
    | some n => if 0 < n then (pyIndexZero p.1, p.2) else (Val.vnull, p.2)
    | none => (Val.vnull, p.2)
  else (Val.vnull, p.2)

/-- `OdooAPI.read_lead_jsonrpc` (lines 288-312). -/
def read_lead_jsonrpc (t : JsonrpcTransport) (s : OdooAPI) (lead_id : Int)
    (fields : Val) : Val × OdooAPI :=
  let f := fieldsOrEmpty fields
  let p := jsonrpc_execute t s "crm.lead" "read"
    [Val.vlist [Val.vint lead_id], Val.vdict [("fields", f)]]
  if truthy p.1 then
    match pyLen p.1 with
    | some n => if 0 < n then (pyIndexZero p.1, p.2) else (Val.vnull, p.2)
    | none => (Val.vnull, p.2)
  else (Val.vnull, p.2)

/-- `OdooAPI.update_lead_xmlrpc` (lines 314-335): `return result` returns the
`execute` result verbatim — in particular `None` when `execute` failed,
despite the `-> bool` annotation; the `except` branch returning `False` is
unreachable because `xmlrpc_execute` never raises. -/
def update_lead_xmlrpc (t : XmlrpcTransport) (s : OdooAPI) (lead_id : Int)
    (lead_data : Val) : Val × OdooAPI :=
  xmlrpc_execute t s "crm.lead" "write" [Val.vlist [Val.vint lead_id], lead_data]

/-- `OdooAPI.update_lead_jsonrpc` (lines 337-358). -/
def update_lead_jsonrpc (t : JsonrpcTransport) (s : OdooAPI) (lead_id : Int)
    (lead_data : Val) : Val × OdooAPI :=
  jsonrpc_execute t s "crm.lead" "write" [Val.vlist [Val.vint lead_id], lead_data]

/-- `OdooAPI.delete_lead_xmlrpc` (lines 360-380): returns the `execute`
result verbatim (see `update_lead_xmlrpc`). -/
def delete_lead_xmlrpc (t : XmlrpcTransport) (s : OdooAPI) (lead_id : Int) :
    Val × OdooAPI :=
  xmlrpc_execute t s "crm.lead" "unlink" [Val.vlist [Val.vint lead_id]]

/-- `OdooAPI.delete_lead_jsonrpc` (lines 382-402). -/
def delete_lead_jsonrpc (t : JsonrpcTransport) (s : OdooAPI) (lead_id : Int) :
    Val × OdooAPI :=
  jsonrpc_execute t s "crm.lead" "unlink" [Val.vlist [Val.vint lead_id]]

/-- The `kwargs` mapping built by `search_leads_xmlrpc` / `search_leads_jsonrpc`
(lines 421-427 and 451-457): `kwargs = {}` followed by
`if offset: ...`, `if limit: ...`, `if order: ...` — each key is inserted
exactly when its value is truthy. -/
def searchKwargs (offset limit order : Val) : List (String × Val) :=
  (if truthy offset then [("offset", offset)] else []) ++
  (if truthy limit then [("limit", limit)] else []) ++
  (if truthy order then [("order", order)] else [])

/-- The `kwargs` mapping built by `search_read_leads_xmlrpc` /
`search_read_leads_jsonrpc` (lines 486-494 and 523-531):
`kwargs = {'fields': fields}` followed by the same three conditional
insertions, so `fields` is always present. -/
def searchReadKwargs (fields offset limit order : Val) : List (String × Val) :=
  ("fields", fields) :: searchKwargs offset limit order

/-- `OdooAPI.search_leads_xmlrpc` (lines 406-434): on an `execute` failure the
result is `None`, `len(lead_ids)` in the log statement raises inside the
`try`, and the handler returns `[]`. -/
def search_leads_xmlrpc (t : XmlrpcTransport) (s : OdooAPI) (domain : Val)
    (offset limit order : Val) : Val × OdooAPI :=
  let p := xmlrpc_execute t s "crm.lead" "search"
    [domain, Val.vdict (searchKwargs offset limit order)]
  match pyLen p.1 with
  | some _ => p
  | none => (Val.vlist [], p.2)

/-- `OdooAPI.search_leads_jsonrpc` (lines 436-464). -/
def search_leads_jsonrpc (t : JsonrpcTransport) (s : OdooAPI) (domain : Val)
    (offset limit order : Val) : Val × OdooAPI :=
  let p := jsonrpc_execute t s "crm.lead" "search"
    [domain, Val.vdict (searchKwargs offset limit order)]
  match pyLen p.1 with
  | some _ => p
  | none => (Val.vlist [], p.2)

/-- `OdooAPI.search_read_leads_xmlrpc` (lines 466-501). -/
def search_read_leads_xmlrpc (t : XmlrpcTransport) (s : OdooAPI) (domain : Val)
    (fields offset limit order : Val) : Val × OdooAPI :=
  let p := xmlrpc_execute t s "crm.lead" "search_read"
    [domain, Val.vdict (searchReadKwargs (fieldsOrEmpty fields) offset limit order)]
  match pyLen p.1 with
  | some _ => p
  | none => (Val.vlist [], p.2)

/-- `OdooAPI.search_read_leads_jsonrpc` (lines 503-538). -/
def search_read_leads_jsonrpc (t : JsonrpcTransport) (s : OdooAPI) (domain : Val)
    (fields offset limit order : Val) : Val × OdooAPI :=
  let p := jsonrpc_execute t s "crm.lead" "search_read"
    [domain, Val.vdict (searchReadKwargs (fieldsOrEmpty fields) offset limit order)]
  match pyLen p.1 with
  | some _ => p
  | none => (Val.vlist [], p.2)

/-- Python dict assignment `d[k] = v` on the integer-keyed `results` dict of
the batch operations: overwrites in place on an existing key (keeping its
insertion position), appends otherwise. -/
def dictSetI (d : List (Int × Val)) (k : Int) (v : Val) : List (Int × Val) :=
  match d with
  | [] => [(k, v)]
  | (k0, v0) :: rest => if k0 = k then (k0, v) :: rest else (k0, v0) :: dictSetI rest k v

/-- Lookup in the integer-keyed `results` dict. -/
def dictGetI (d : List (Int × Val)) (k : Int) : Option Val :=
  match d with
  | [] => none
  | (k0, v0) :: rest => if k0 = k then some v0 else dictGetI rest k

/-- The common loop shape of the four batch update / delete operations
(lines 592-690): for each input item, invoke the single-record operation on
the threaded session state and store the returned value in the `results`
dict under the item's identifier. -/
def batchDictGo {α : Type} (key : α → Int) (f : OdooAPI → α → Val × OdooAPI) :
    OdooAPI → List α → List (Int × Val) → List (Int × Val) × OdooAPI
  | s, [], results => (results, s)
  | s, item :: rest, results =>
    let p := f s item
    batchDictGo key f p.2 rest (dictSetI results (key item) p.1)

/-- The common loop shape of the two batch create operations (lines 542-590):
for each input item, invoke the single-record create and append its result to
the accumulator exactly when that result is truthy (`if lead_id:`). -/
def batchListGo {α : Type} (f : OdooAPI → α → Val × OdooAPI) :
    OdooAPI → List α → List Val → List Val × OdooAPI
  | s, [], acc => (acc, s)
  | s, item :: rest, acc =>
    let p := f s item
    batchListGo f p.2 rest (if truthy p.1 then acc ++ [p.1] else acc)

/-- `OdooAPI.create_leads_batch_xmlrpc` (lines 542-565): the loop body is
`lead_id = self.create_lead_xmlrpc(lead_data); if lead_id:
lead_ids.append(lead_id)`; the surrounding `try/except` is unreachable
(nothing in the loop raises). -/
def create_leads_batch_xmlrpc (t : XmlrpcTransport) (s : OdooAPI)
    (leads_data : List Val) : List Val × OdooAPI :=
  batchListGo (fun s0 d => create_lead_xmlrpc t s0 d) s leads_data []

/-- `OdooAPI.create_leads_batch_jsonrpc` (lines 567-590). -/
def create_leads_batch_jsonrpc (t : JsonrpcTransport) (s : OdooAPI)
    (leads_data : List Val) : List Val × OdooAPI :=
  batchListGo (fun s0 d => create_lead_jsonrpc t s0 d) s leads_data []

/-- `OdooAPI.update_leads_batch_xmlrpc` (lines 592-615): iterates
`leads_updates.items()` (a Python dict, modelled as its insertion-ordered
association list) and stores each single-record result under its lead id. -/
def update_leads_batch_xmlrpc (t : XmlrpcTransport) (s : OdooAPI)
    (leads_updates : List (Int × Val)) : List (Int × Val) × OdooAPI :=
  batchDictGo Prod.fst (fun s0 item => update_lead_xmlrpc t s0 item.1 item.2)
    s leads_updates []

/-- `OdooAPI.update_leads_batch_jsonrpc` (lines 617-640). -/
def update_leads_batch_jsonrpc (t : JsonrpcTransport) (s : OdooAPI)
    (leads_updates : List (Int × Val)) : List (Int × Val) × OdooAPI :=
  batchDictGo Prod.fst (fun s0 item => update_lead_jsonrpc t s0 item.1 item.2)
    s leads_updates []

/-- `OdooAPI.delete_leads_batch_xmlrpc` (lines 642-665): iterates the input
id list and stores each single-record result under that id. -/
def delete_leads_batch_xmlrpc (t : XmlrpcTransport) (s : OdooAPI)
    (lead_ids : List Int) : List (Int × Val) × OdooAPI :=
  batchDictGo (fun i => i) (fun s0 i => delete_lead_xmlrpc t s0 i) s lead_ids []

/-- `OdooAPI.delete_leads_batch_jsonrpc` (lines 667-690). -/
def delete_leads_batch_jsonrpc (t : JsonrpcTransport) (s : OdooAPI)
    (lead_ids : List Int) : List (Int × Val) × OdooAPI :=
  batchDictGo (fun i => i) (fun s0 i => delete_lead_jsonrpc t s0 i) s lead_ids []

/-- The list of per-item single-record results produced by a batch run, in
input order, with the session state threaded exactly as the loop threads it. -/
def batchResultsList {α : Type} (f : OdooAPI → α → Val × OdooAPI) :
    OdooAPI → List α → List Val
  | _, [] => []
  | s, item :: rest =>
    let p := f s item
    p.1 :: batchResultsList f p.2 rest

/-- Index of the last `close`-brace character in a character list, if any
(0-based). -/
def lastCloseIdx : List Char → Option Nat
  | [] => none
  | c :: rest =>
    match lastCloseIdx rest with
    | some k => some (k + 1)
    | none => if c == '}' then some 0 else none

/-- The first (and, by greediness, longest) match of the regex `\{.*\}` with
`re.DOTALL` used by `src/chatbot.py` line 88: the match starts at the
leftmost open brace that is followed by some close brace, and extends to the
last close brace of the whole text. -/
def braceSearch : List Char → Option (List Char)
  | [] => none
  | c :: rest =>
    if c == '{' then
      match lastCloseIdx rest with
      | some k => some (c :: rest.take (k + 1))
      | none => braceSearch rest
    else braceSearch rest

/-- Whether the text contains a close brace. -/
def hasClose : List Char → Bool
  | [] => false
  | c :: rest => (c == '}') || hasClose rest

/-- Whether the text contains a brace-delimited substring, i.e. an open brace
followed (strictly later) by a close brace — exactly the condition under
which `re.search(r'\{.*\}', text, re.DOTALL)` finds a match. -/
def hasBracePair : List Char → Bool
  | [] => false
  | c :: rest => ((c == '{') && hasClose rest) || hasBracePair rest

/-- JSON whitespace skipping. -/
def skipWs (cs : List Char) : List Char :=
  cs.dropWhile (fun c => c == ' ' || c == '\n' || c == '\t' || c == '\r')

/-- The JSON string escape pairs supported by this model of `json.loads`:
escape letter paired with the character it denotes. -/
def escPairs : List (Char × Char) :=
  [('"', '"'), ('\\', '\\'), ('/', '/'), ('n', '\n'), ('t', '\t'), ('r', '\r')]

/-- Resolve one JSON string escape letter. -/
def escChar (c : Char) : Option Char :=
  (escPairs.find? (fun p => p.1 == c)).map Prod.snd

/-- Parse the remainder of a JSON string literal (after the opening quote),
returning its characters and the rest of the input. -/
def parseStringChars : List Char → Option (List Char × List Char)
  | [] => none
  | '"' :: rest => some ([], rest)
  | '\\' :: c :: rest =>
    match escChar c, parseStringChars rest with
    | some e, some (sc, r) => some (e :: sc, r)
    | _, _ => none
  | c :: rest =>
    match parseStringChars rest with
    | some (sc, r) => some (c :: sc, r)
    | none => none

/-- Parse a nonempty run of decimal digits. -/
def parseDigits (cs : List Char) : Option (Nat × List Char) :=
  let ds := cs.takeWhile (fun c => c.isDigit)
  if ds.isEmpty then none
  else some (ds.foldl (fun a c => a * 10 + (c.toNat - 48)) 0,
             cs.dropWhile (fun c => c.isDigit))

/-- Parse the members of a JSON object after the opening brace (nonempty
case), with the element parser `p` supplied as an argument and an explicit
recursion fuel. -/
def parseMembersWith (p : List Char → Option (Val × List Char)) :
    Nat → List Char → Option (List (String × Val) × List Char)
  | 0, _ => none
  | Nat.succ fuel, cs =>
    match skipWs cs with
    | '"' :: rest =>
      match parseStringChars rest with
      | some (kc, r1) =>
        match skipWs r1 with
        | ':' :: r2 =>
          match p r2 with
          | some (v, r3) =>
            (match skipWs r3 with
             | ',' :: r4 =>
               match parseMembersWith p fuel r4 with
               | some (ms, r5) => some ((String.mk kc, v) :: ms, r5)
               | none => none
             | '}' :: r4 => some ([(String.mk kc, v)], r4)
             | _ => none)
          | none => none
        | _ => none
      | none => none
    | _ => none

/-- Parse the items of a JSON array after the opening bracket (nonempty
case), with the element parser `p` supplied as an argument and an explicit
recursion fuel. -/
def parseItemsWith (p : List Char → Option (Val × List Char)) :
    Nat → List Char → Option (List Val × List Char)
  | 0, _ => none
  | Nat.succ fuel, cs =>
    match p cs with
    | some (v, r1) =>
      (match skipWs r1 with
       | ',' :: r2 =>
         match parseItemsWith p fuel r2 with
         | some (vs, r3) => some (v :: vs, r3)
         | none => none
       | ']' :: r2 => some ([v], r2)
       | _ => none)
    | none => none

/-- A recursive-descent parser for the JSON value grammar (null, booleans,
integers, strings, arrays, objects), modelling `json.loads` on the payloads
this repository parses.  `fuel` bounds the nesting recursion. -/
def parseJsonVal : Nat → List Char → Option (Val × List Char)
  | 0, _ => none
  | Nat.succ fuel, cs =>
    match skipWs cs with
    | 'n' :: 'u' :: 'l' :: 'l' :: rest => some (Val.vnull, rest)
    | 't' :: 'r' :: 'u' :: 'e' :: rest => some (Val.vbool true, rest)
    | 'f' :: 'a' :: 'l' :: 's' :: 'e' :: rest => some (Val.vbool false, rest)
    | '"' :: rest =>
      (match parseStringChars rest with
       | some (sc, r) => some (Val.vstr (String.mk sc), r)
       | none => none)
    | '[' :: rest =>
      (match skipWs rest with
       | ']' :: r2 => some (Val.vlist [], r2)
       | _ =>
         match parseItemsWith (parseJsonVal fuel) fuel rest with
         | some (vs, r) => some (Val.vlist vs, r)
         | none => none)
    | '{' :: rest =>
      (match skipWs rest with
       | '}' :: r2 => some (Val.vdict [], r2)
       | _ =>
         match parseMembersWith (parseJsonVal fuel) fuel rest with
         | some (ms, r) => some (Val.vdict ms, r)
         | none => none)
    | '-' :: rest =>
      (match parseDigits rest with
       | some (n, r) => some (Val.vint (-(n : Int)), r)
       | none => none)
    | c :: rest =>
      if c.isDigit then
        match parseDigits (c :: rest) with
        | some (n, r) => some (Val.vint (n : Int), r)
        | none => none
      else none
    | [] => none

/-- `json.loads` on a whole text: parse one value and require only trailing
whitespace; `none` models a raised `JSONDecodeError`. -/
def jsonLoads (cs : List Char) : Option Val :=
  match parseJsonVal (cs.length + 1) cs with
  | some (v, rest) => if skipWs rest = [] then some v else none
  | none => none

/-- The regex-then-parse step of the extraction block (`src/chatbot.py`
lines 88-91): locate the first brace-delimited substring and feed it to
`json.loads`; `none` when there is no match (`match` falsy) — the parse
result when there is one is reported separately by `processExtraction`. -/
def extractParse (text : List Char) : Option Val :=
  match braceSearch text with
  | some sub => jsonLoads sub
  | none => none

/-- The external calls made by the chatbot's Odoo block (`src/chatbot.py`
lines 96-107): `common.authenticate` and the `crm.lead` `create` call via
`models.execute_kw` (as a function of db, uid, password and the values
dict). -/
structure ChatOdoo : Type where
  auth : String → String → String → TResult
  create : String → Val → String → Val → TResult

/-- The `crm.lead` values dict built at `src/chatbot.py` lines 101-107.
`extracted.get('name', 'New Lead') + ' Lead'` concatenates strings; when the
extracted `name` is present but not a string the `+` raises a `TypeError`
(inside the Odoo `try`), modelled as `none`. -/
def leadValues (extracted : Val) : Option Val :=
  match pyGetDefault extracted "name" (Val.vstr "New Lead") with
  | Val.vstr nm =>
    some (Val.vdict
      [("name", Val.vstr (nm ++ " Lead")),
       ("contact_name", pyGet extracted "name"),
       ("email_from", pyGet extracted "email"),
       ("phone", pyGet extracted "phone"),
       ("description", pyGet extracted "requirements")])
  | _ => none

/-- The user-visible outcome of the extraction block: lead created
(`st.success`), Odoo authentication failed (`st.error`), an exception inside
the Odoo block (`st.error` "Error connecting to Odoo"), no regex match
(`st.error` "Failed to extract information."), or an exception in the outer
extraction `try` such as a `json.loads` failure (`st.error` "Error
extracting information"). -/
inductive LeadOutcome : Type where
  | created : Val → LeadOutcome
  | authFailed : LeadOutcome
  | odooError : LeadOutcome
  | extractFailed : LeadOutcome
  | extractError : LeadOutcome

/-- The extraction block of `src/chatbot.py` (lines 85-116), from the point
where the extraction response text is available: regex search, `json.loads`,
then one authenticate and (on truthy uid) one create call.  The second
component counts the remote `create` calls attempted (the claim of interest
is that a failed parse attempts none). -/
def processExtraction (t : ChatOdoo) (db username password : String)
    (text : List Char) : LeadOutcome × Nat :=
  match braceSearch text with
  | none => (LeadOutcome.extractFailed, 0)
  | some sub =>
    match jsonLoads sub with
    | none => (LeadOutcome.extractError, 0)
    | some extracted =>
      match t.auth db username password with
      | TResult.exn => (LeadOutcome.odooError, 0)
      | TResult.ok uid =>
        if truthy uid then
          match leadValues extracted with
          | none => (LeadOutcome.odooError, 0)
          | some vals =>
            match t.create db uid password vals with
            | TResult.ok lead_id => (LeadOutcome.created lead_id, 1)
            | TResult.exn => (LeadOutcome.odooError, 1)
        else (LeadOutcome.authFailed, 0)

/-- The concrete generation-service response text of the extraction-parse
test case. -/
def sampleExtractionText : List Char :=
  String.data "Here is the info: \x7b\"name\":\"Alice\",\"email\":\"a@x.com\",\"phone\":null,\"requirements\":\"CRM demo\"\x7d Thanks"

/-- The JSON object embedded in `sampleExtractionText`. -/
def sampleExtractedVal : Val :=
  Val.vdict
    [("name", Val.vstr "Alice"),
     ("email", Val.vstr "a@x.com"),
     ("phone", Val.vnull),
     ("requirements", Val.vstr "CRM demo")]

/-! ### Concrete fixtures used by witnesses and counterexamples -/

/-- A fresh session as built by `demo_usage` (lines 698-704). -/
def sFresh : OdooAPI := OdooAPI.init "http://localhost:8069" "odoo" "admin" "admin"

/-- A session that has already authenticated over XML-RPC (uid 2, both proxy
handles set). -/
def sAuth : OdooAPI :=
  { sFresh with uid := Val.vint 2, xmlrpc_common := true, xmlrpc_models := true }

/-- An XML-RPC transport whose authentication succeeds but whose
`execute_kw` raises (e.g. the network drops after login). -/
def tExn : XmlrpcTransport :=
  { auth := fun _ _ _ => TResult.ok (Val.vint 1)
    execute_kw := fun _ _ _ _ _ _ => TResult.exn }

/-- An XML-RPC transport whose authentication returns the falsy value
`False` (Odoo's response to bad credentials). -/
def tAuthFalse : XmlrpcTransport :=
  { auth := fun _ _ _ => TResult.ok (Val.vbool false)
    execute_kw := fun _ _ _ _ _ _ => TResult.ok (Val.vint 99) }

/-- An XML-RPC transport where everything succeeds. -/
def tOk : XmlrpcTransport :=
  { auth := fun _ _ _ => TResult.ok (Val.vint 2)
    execute_kw := fun _ _ _ _ _ _ => TResult.ok (Val.vint 9) }

/-- A JSON-RPC transport whose login succeeds but whose `execute_kw` post
raises. -/
def jExn : JsonrpcTransport :=
  { login := fun _ _ _ =>
      HttpResult.resp 200 false (Val.vdict [("result", Val.vint 2)]) (Val.vstr "sid")
    call := fun _ _ _ _ _ _ _ => HttpResult.exn }

/-- A JSON-RPC transport whose login returns a falsy `result`. -/
def jAuthFalse : JsonrpcTransport :=
  { login := fun _ _ _ =>
      HttpResult.resp 200 false (Val.vdict [("result", Val.vbool false)]) Val.vnull
    call := fun _ _ _ _ _ _ _ =>
      HttpResult.resp 200 false (Val.vdict [("result", Val.vint 5)]) Val.vnull }

/-- A JSON-RPC transport where everything succeeds. -/
def jOk : JsonrpcTransport :=
  { login := fun _ _ _ =>
      HttpResult.resp 200 false (Val.vdict [("result", Val.vint 2)]) (Val.vstr "sid")
    call := fun _ _ _ _ _ _ _ =>
      HttpResult.resp 200 false (Val.vdict [("result", Val.vint 9)]) Val.vnull }

/-- A JSON-RPC transport whose `execute_kw` post returns a well-formed
envelope carrying an `error` payload. -/
def jErr : JsonrpcTransport :=
  { login := fun _ _ _ =>
      HttpResult.resp 200 false (Val.vdict [("result", Val.vint 2)]) (Val.vstr "sid")
    call := fun _ _ _ _ _ _ _ =>
      HttpResult.resp 200 false (Val.vdict [("error", Val.vstr "boom")]) Val.vnull }

/-- A chatbot Odoo backend where everything succeeds. -/
def cOk : ChatOdoo :=
  { auth := fun _ _ _ => TResult.ok (Val.vint 1)
    create := fun _ _ _ _ => TResult.ok (Val.vint 42) }

/-- Whether a value is a Python boolean. -/
def isBool : Val → Bool
  | Val.vbool _ => true
  | _ => false

/-! ### State lemmas about authentication and execution -/

/-- The four construction-time connection fields of a session. -/
def coreOf (s : OdooAPI) : String × String × String × String :=
  (s.url, s.db, s.username, s.password)

theorem xmlrpc_authenticate_core (t : XmlrpcTransport) (s : OdooAPI) :
    coreOf (xmlrpc_authenticate t s).2 = coreOf s := by
  rcases h : t.auth s.db s.username s.password with v | _ <;>
    simp [xmlrpc_authenticate, h, coreOf]
  by_cases hv : truthy v <;> simp [hv]

theorem jsonrpc_authenticate_core (t : JsonrpcTransport) (s : OdooAPI) :
    coreOf (jsonrpc_authenticate t s).2 = coreOf s := by
  rcases h : t.login s.db s.username s.password with _ | ⟨status, jsonExn, body, cookie⟩ <;>
    simp [jsonrpc_authenticate, h, coreOf]
  by_cases hs : status = 200 <;> simp [hs]
  cases jsonExn <;> simp
  rcases hr : dictGet body "result" with _ | v <;> simp [hr]
  by_cases hv : truthy v <;> simp [hv]

theorem xmlrpc_execute_snd (t : XmlrpcTransport) (s : OdooAPI)
    (model method : String) (args : List Val) :
    (xmlrpc_execute t s model method args).2 = s ∨
    (xmlrpc_execute t s model method args).2 = (xmlrpc_authenticate t s).2 := by
  simp only [xmlrpc_execute]
  repeat' split
  all_goals first | exact Or.inl rfl | exact Or.inr rfl

theorem jsonrpc_execute_snd (t : JsonrpcTransport) (s : OdooAPI)
    (model method : String) (args : List Val) :
    (jsonrpc_execute t s model method args).2 = s ∨
    (jsonrpc_execute t s model method args).2 = (jsonrpc_authenticate t s).2 := by
  simp only [jsonrpc_execute]
  repeat' split
  all_goals first | exact Or.inl rfl | exact Or.inr rfl

theorem xmlrpc_execute_core (t : XmlrpcTransport) (s : OdooAPI)
    (model method : String) (args : List Val) :
    coreOf (xmlrpc_execute t s model method args).2 = coreOf s := by
  rcases xmlrpc_execute_snd t s model method args with h | h <;> rw [h]
  exact xmlrpc_authenticate_core t s

theorem jsonrpc_execute_core (t : JsonrpcTransport) (s : OdooAPI)
    (model method : String) (args : List Val) :
    coreOf (jsonrpc_execute t s model method args).2 = coreOf s := by
  rcases jsonrpc_execute_snd t s model method args with h | h <;> rw [h]
  exact jsonrpc_authenticate_core t s

theorem xmlrpc_execute_of_auth (t : XmlrpcTransport) (s : OdooAPI)
    (model method : String) (args : List Val)
    (h1 : truthy s.uid = true) (h2 : s.xmlrpc_models = true) :
    xmlrpc_execute t s model method args =
      (match t.execute_kw s.db s.uid s.password model method args with
       | TResult.ok v => (v, s)
       | TResult.exn => (Val.vnull, s)) := by
  simp [xmlrpc_execute, h1, h2]

theorem jsonrpc_execute_of_auth (t : JsonrpcTransport) (s : OdooAPI)
    (model method : String) (args : List Val)
    (h : truthy s.uid = true) :
    jsonrpc_execute t s model method args =
      (match t.call s.db s.uid s.password model method args
          (if truthy s.session_id then s.session_id else Val.vnull) with
       | HttpResult.exn => (Val.vnull, s)
       | HttpResult.resp status jsonExn body _ =>
         if status = 200 then
           if jsonExn then (Val.vnull, s)
           else
             match dictGet body "result" with
             | some v => (v, s)
             | none => (Val.vnull, s)
         else (Val.vnull, s)) := by
  simp [jsonrpc_execute, h]

theorem xmlrpc_execute_of_unauth (t : XmlrpcTransport) (s : OdooAPI)
    (model method : String) (args : List Val)
    (h : truthy s.uid = false) :
    xmlrpc_execute t s model method args =
      (if (xmlrpc_authenticate t s).1 then
        (match t.execute_kw (xmlrpc_authenticate t s).2.db (xmlrpc_authenticate t s).2.uid
            (xmlrpc_authenticate t s).2.password model method args with
         | TResult.ok v => (v, (xmlrpc_authenticate t s).2)
         | TResult.exn => (Val.vnull, (xmlrpc_authenticate t s).2))
      else (Val.vnull, (xmlrpc_authenticate t s).2)) := by
  simp [xmlrpc_execute, h]

theorem jsonrpc_execute_of_unauth (t : JsonrpcTransport) (s : OdooAPI)
    (model method : String) (args : List Val)
    (h : truthy s.uid = false) :
    jsonrpc_execute t s model method args =
      (if (jsonrpc_authenticate t s).1 then
        (match t.call (jsonrpc_authenticate t s).2.db (jsonrpc_authenticate t s).2.uid
            (jsonrpc_authenticate t s).2.password model method args
            (if truthy (jsonrpc_authenticate t s).2.session_id
              then (jsonrpc_authenticate t s).2.session_id else Val.vnull) with
         | HttpResult.exn => (Val.vnull, (jsonrpc_authenticate t s).2)
         | HttpResult.resp status jsonExn body _ =>
           if status = 200 then
             if jsonExn then (Val.vnull, (jsonrpc_authenticate t s).2)
             else
               match dictGet body "result" with
               | some v => (v, (jsonrpc_authenticate t s).2)
               | none => (Val.vnull, (jsonrpc_authenticate t s).2)
           else (Val.vnull, (jsonrpc_authenticate t s).2))
      else (Val.vnull, (jsonrpc_authenticate t s).2)) := by
  simp [jsonrpc_execute, h]

theorem xmlrpc_authenticate_db (t : XmlrpcTransport) (s : OdooAPI) :
    (xmlrpc_authenticate t s).2.db = s.db := by
  have h := xmlrpc_authenticate_core t s
  simp only [coreOf, Prod.mk.injEq] at h
  exact h.2.1

theorem xmlrpc_authenticate_password (t : XmlrpcTransport) (s : OdooAPI) :
    (xmlrpc_authenticate t s).2.password = s.password := by
  have h := xmlrpc_authenticate_core t s
  simp only [coreOf, Prod.mk.injEq] at h
  exact h.2.2.2

theorem jsonrpc_authenticate_db (t : JsonrpcTransport) (s : OdooAPI) :
    (jsonrpc_authenticate t s).2.db = s.db := by
  have h := jsonrpc_authenticate_core t s
  simp only [coreOf, Prod.mk.injEq] at h
  exact h.2.1

theorem jsonrpc_authenticate_password (t : JsonrpcTransport) (s : OdooAPI) :
    (jsonrpc_authenticate t s).2.password = s.password := by
  have h := jsonrpc_authenticate_core t s
  simp only [coreOf, Prod.mk.injEq] at h
  exact h.2.2.2

theorem xmlrpc_authenticate_true (t : XmlrpcTransport) (s : OdooAPI)
    (h : (xmlrpc_authenticate t s).1 = true) :
    truthy (xmlrpc_authenticate t s).2.uid = true ∧
    (xmlrpc_authenticate t s).2.xmlrpc_models = true := by
  rcases ha : t.auth s.db s.username s.password with v | _ <;>
    simp [xmlrpc_authenticate, ha] at h ⊢
  by_cases hv : truthy v <;> simp [hv] at h ⊢

theorem jsonrpc_authenticate_true (t : JsonrpcTransport) (s : OdooAPI)
    (h : (jsonrpc_authenticate t s).1 = true) :
    truthy (jsonrpc_authenticate t s).2.uid = true := by
  rcases ha : t.login s.db s.username s.password with _ | ⟨status, jsonExn, body, cookie⟩ <;>
    simp [jsonrpc_authenticate, ha] at h ⊢
  by_cases hs : status = 200 <;> simp [hs] at h ⊢
  cases jsonExn <;> simp at h ⊢
  rcases hr : dictGet body "result" with _ | v <;> simp [hr] at h ⊢
  by_cases hv : truthy v <;> simp [hv] at h ⊢

/-! ### Lemmas about the batch loops and the results dict -/

/-- Effect of one Python dict assignment on the key list: an existing key
keeps its position, a new key is appended. -/
def insertKey (ks : List Int) (k : Int) : List Int :=
  if k ∈ ks then ks else ks ++ [k]

/-- The key list of a Python dict built by assigning under the given keys in
order, starting from the empty dict: first-occurrence order deduplication. -/
def pyDictKeys (ks : List Int) : List Int :=
  ks.foldl insertKey []

theorem dictSetI_keys (d : List (Int × Val)) (k : Int) (v : Val) :
    (dictSetI d k v).map Prod.fst = insertKey (d.map Prod.fst) k := by
  induction d with
  | nil => simp [dictSetI, insertKey]
  | cons hd tl ih =>
    obtain ⟨k0, v0⟩ := hd
    by_cases hk : k0 = k
    · subst hk
      simp [dictSetI, insertKey]
    · have hk2 : ¬k = k0 := fun h => hk h.symm
      simp only [dictSetI, hk, if_false, List.map_cons, ih, insertKey]
      by_cases hm : k ∈ tl.map Prod.fst
      · simp [hm, hk2]
      · simp [hm, hk2]

theorem dictGetI_setI_self (d : List (Int × Val)) (k : Int) (v : Val) :
    dictGetI (dictSetI d k v) k = some v := by
  induction d with
  | nil => simp [dictSetI, dictGetI]
  | cons hd tl ih =>
    obtain ⟨k0, v0⟩ := hd
    by_cases hk : k0 = k <;> simp [dictSetI, dictGetI, hk, ih]

theorem dictGetI_setI_ne (d : List (Int × Val)) (k k1 : Int) (v : Val)
    (h : k1 ≠ k) : dictGetI (dictSetI d k v) k1 = dictGetI d k1 := by
  have h2 : ¬k = k1 := fun hh => h hh.symm
  induction d with
  | nil => simp [dictSetI, dictGetI, h2]
  | cons hd tl ih =>
    obtain ⟨k0, v0⟩ := hd
    by_cases hk : k0 = k
    · subst hk
      simp [dictSetI, dictGetI, h2, fun hh : k0 = k1 => h2 hh]
    · simp [dictSetI, dictGetI, hk, ih]

theorem batchDictGo_keys {α : Type} (key : α → Int) (f : OdooAPI → α → Val × OdooAPI) :
    ∀ (l : List α) (s : OdooAPI) (res : List (Int × Val)),
    ((batchDictGo key f s l res).1).map Prod.fst =
      (l.map key).foldl insertKey (res.map Prod.fst) := by
  intro l
  induction l with
  | nil => intro s res; rfl
  | cons x rest ih =>
    intro s res
    simp only [batchDictGo, List.map_cons, List.foldl_cons, ih, dictSetI_keys]

theorem foldl_insertKey_of_nodup :
    ∀ (ks acc : List Int), ks.Nodup → (∀ k ∈ ks, k ∉ acc) →
    ks.foldl insertKey acc = acc ++ ks := by
  intro ks
  induction ks with
  | nil => intro acc _ _; simp
  | cons k rest ih =>
    intro acc hnd hdisj
    have hk : k ∉ acc := hdisj k (by simp)
    have h1 : insertKey acc k = acc ++ [k] := by simp [insertKey, hk]
    have h2 : rest.foldl insertKey (acc ++ [k]) = (acc ++ [k]) ++ rest := by
      refine ih (acc ++ [k]) (List.Nodup.of_cons hnd) ?_
      intro k1 hmem
      simp only [List.mem_append, List.mem_singleton]
      rintro (hin | hEq)
      · exact hdisj k1 (by simp [hmem]) hin
      · subst hEq
        exact (List.nodup_cons.mp hnd).1 hmem
    simp [h1, h2]

theorem batchDictGo_append {α : Type} (key : α → Int) (f : OdooAPI → α → Val × OdooAPI) :
    ∀ (l1 l2 : List α) (s : OdooAPI) (res : List (Int × Val)),
    batchDictGo key f s (l1 ++ l2) res =
      batchDictGo key f (batchDictGo key f s l1 res).2 l2 (batchDictGo key f s l1 res).1 := by
  intro l1
  induction l1 with
  | nil => intro l2 s res; rfl
  | cons x rest ih =>
    intro l2 s res
    simp only [List.cons_append, batchDictGo, List.append_eq, ih]

theorem batchDictGo_get_of_notin {α : Type} (key : α → Int) (f : OdooAPI → α → Val × OdooAPI) :
    ∀ (l : List α) (s : OdooAPI) (res : List (Int × Val)) (k : Int),
    (∀ it ∈ l, key it ≠ k) →
    dictGetI ((batchDictGo key f s l res).1) k = dictGetI res k := by
  intro l
  induction l with
  | nil => intro s res k _; rfl
  | cons x rest ih =>
    intro s res k hne
    simp only [batchDictGo]
    rw [ih _ _ k (fun it hit => hne it (by simp [hit]))]
    exact dictGetI_setI_ne _ _ _ _ (fun h => hne x (by simp) h.symm)

theorem batchListGo_eq {α : Type} (f : OdooAPI → α → Val × OdooAPI) :
    ∀ (l : List α) (s : OdooAPI) (acc : List Val),
    (batchListGo f s l acc).1 =
      acc ++ (batchResultsList f s l).filter (fun v => truthy v) := by
  intro l
  induction l with
  | nil => intro s acc; simp [batchListGo, batchResultsList]
  | cons x rest ih =>
    intro s acc
    simp only [batchListGo, batchResultsList, ih]
    by_cases ht : truthy (f s x).1 <;> simp [ht]

theorem batchResultsList_length {α : Type} (f : OdooAPI → α → Val × OdooAPI) :
    ∀ (l : List α) (s : OdooAPI), (batchResultsList f s l).length = l.length := by
  intro l
  induction l with
  | nil => intro s; rfl
  | cons x rest ih => intro s; simp [batchResultsList, ih]

theorem batchDictGo_state_fix {α : Type} (key : α → Int) (f : OdooAPI → α → Val × OdooAPI)
    (s : OdooAPI) (hf : ∀ x : α, (f s x).2 = s) :
    ∀ (l : List α) (res : List (Int × Val)), (batchDictGo key f s l res).2 = s := by
  intro l
  induction l with
  | nil => intro res; rfl
  | cons x rest ih =>
    intro res
    simp only [batchDictGo, hf x, ih]

theorem batchListGo_state_fix {α : Type} (f : OdooAPI → α → Val × OdooAPI)
    (s : OdooAPI) (hf : ∀ x : α, (f s x).2 = s) :
    ∀ (l : List α) (acc : List Val), (batchListGo f s l acc).2 = s := by
  intro l
  induction l with
  | nil => intro acc; rfl
  | cons x rest ih =>
    intro acc
    simp only [batchListGo, hf x, ih]

theorem batchDictGo_core {α : Type} (key : α → Int) (f : OdooAPI → α → Val × OdooAPI)
    (hf : ∀ (s : OdooAPI) (x : α), coreOf (f s x).2 = coreOf s) :
    ∀ (l : List α) (s : OdooAPI) (res : List (Int × Val)),
    coreOf (batchDictGo key f s l res).2 = coreOf s := by
  intro l
  induction l with
  | nil => intro s res; rfl
  | cons x rest ih =>
    intro s res
    simp only [batchDictGo]
    rw [ih]
    exact hf s x

theorem batchListGo_core {α : Type} (f : OdooAPI → α → Val × OdooAPI)
    (hf : ∀ (s : OdooAPI) (x : α), coreOf (f s x).2 = coreOf s) :
    ∀ (l : List α) (s : OdooAPI) (acc : List Val),
    coreOf (batchListGo f s l acc).2 = coreOf s := by
  intro l
  induction l with
  | nil => intro s acc; rfl
  | cons x rest ih =>
    intro s acc
    simp only [batchListGo]
    rw [ih]
    exact hf s x

/-! ### Lemmas about the regex model -/

theorem lastCloseIdx_eq_none_of : ∀ (cs : List Char), hasClose cs = false →
    lastCloseIdx cs = none := by
  intro cs
  induction cs with
  | nil => intro _; rfl
  | cons c rest ih =>
    intro h
    simp only [hasClose, Bool.or_eq_false_iff] at h
    simp [lastCloseIdx, ih h.2, h.1]

theorem braceSearch_eq_none_of : ∀ (cs : List Char), hasBracePair cs = false →
    braceSearch cs = none := by
  intro cs
  induction cs with
  | nil => intro _; rfl
  | cons c rest ih =>
    intro h
    simp only [hasBracePair, Bool.or_eq_false_iff, Bool.and_eq_false_iff] at h
    obtain ⟨h1, h2⟩ := h
    simp only [braceSearch]
    by_cases hc : (c == '{') = true
    · have hcl : hasClose rest = false := by
        rcases h1 with h1 | h1
        · rw [hc] at h1
          cases h1
        · exact h1
      rw [if_pos hc, lastCloseIdx_eq_none_of rest hcl]
      exact ih h2
    · rw [if_neg hc]
      exact ih h2

/-! ### Claims -/

/-- Claim C1: for every `OdooAPI` session, if authenticate
(`xmlrpc_authenticate` or `jsonrpc_authenticate`) runs against a transport
whose authenticate/login result is falsy, then authenticate returns `false`,
the session's user id stays unset — formalised as not truthy, the session's
own authenticated-test (`if not self.uid`); over XML-RPC the falsy transport
value itself is stored in `uid`, over JSON-RPC the state is entirely
unchanged — and a subsequent execute on that session returns the failure
sentinel `None`.  No exception can propagate: the embedded operations are
total functions whose only failure outcome is the returned sentinel. -/
theorem claim_C1 :
    (∀ (t : XmlrpcTransport) (s : OdooAPI) (v : Val) (model method : String)
      (args : List Val),
      t.auth s.db s.username s.password = TResult.ok v →
      truthy v = false →
      (xmlrpc_authenticate t s).1 = false ∧
      truthy (xmlrpc_authenticate t s).2.uid = false ∧
      (xmlrpc_execute t (xmlrpc_authenticate t s).2 model method args).1 = Val.vnull) ∧
    (∀ (t : JsonrpcTransport) (s : OdooAPI) (body cookie v : Val)
      (model method : String) (args : List Val),
      t.login s.db s.username s.password = HttpResult.resp 200 false body cookie →
      dictGet body "result" = some v →
      truthy v = false →
      truthy s.uid = false →
      (jsonrpc_authenticate t s).1 = false ∧
      (jsonrpc_authenticate t s).2 = s ∧
      (jsonrpc_execute t (jsonrpc_authenticate t s).2 model method args).1 = Val.vnull) := by
  constructor
  · intro t s v model method args h1 h2
    have hA : xmlrpc_authenticate t s =
        (false, { s with xmlrpc_common := true, uid := v }) := by
      simp [xmlrpc_authenticate, h1, h2]
    refine ⟨by rw [hA], by rw [hA]; exact h2, ?_⟩
    rw [hA]
    simp [xmlrpc_execute, xmlrpc_authenticate, h1, h2]
  · intro t s body cookie v model method args h1 h2 h3 h4
    have hA : jsonrpc_authenticate t s = (false, s) := by
      simp [jsonrpc_authenticate, h1, h2, h3]
    refine ⟨by rw [hA], by rw [hA], ?_⟩
    rw [hA]
    simp [jsonrpc_execute, hA, h4]

/-- Witness for C1 at the concrete transports `tAuthFalse` / `jAuthFalse`
(login result `False`) and the fresh session. -/
theorem claim_C1_witness :
    ((xmlrpc_authenticate tAuthFalse sFresh).1 = false ∧
     truthy (xmlrpc_authenticate tAuthFalse sFresh).2.uid = false ∧
     (xmlrpc_execute tAuthFalse (xmlrpc_authenticate tAuthFalse sFresh).2
       "crm.lead" "search" []).1 = Val.vnull) ∧
    ((jsonrpc_authenticate jAuthFalse sFresh).1 = false ∧
     (jsonrpc_authenticate jAuthFalse sFresh).2 = sFresh ∧
     (jsonrpc_execute jAuthFalse (jsonrpc_authenticate jAuthFalse sFresh).2
       "crm.lead" "search" []).1 = Val.vnull) :=
  ⟨claim_C1.1 tAuthFalse sFresh (Val.vbool false) "crm.lead" "search" [] rfl rfl,
   claim_C1.2 jAuthFalse sFresh (Val.vdict [("result", Val.vbool false)]) Val.vnull
     (Val.vbool false) "crm.lead" "search" [] rfl rfl rfl rfl⟩

/-- Counterexample to claim C2 as stated.  First conjunct: in a search call
with the caller-supplied value `limit=0` (and `offset`/`order` at their
defaults), the outgoing kwargs mapping does not contain the key `limit` at
all (the code tests truthiness — `if limit:` — not whether the caller
supplied the argument), contradicting "each optional parameter the caller
supplied is present in that mapping with exactly the supplied value".
Remaining conjuncts: in a search-read call with `limit=5, order="id desc"`
and everything else at default, the outgoing kwargs mapping has key list
`[fields, limit, order]`, not exactly `\x7blimit: 5, order: "id desc"\x7d`:
`fields` is always sent, even when left at its default. -/
theorem claim_C2_counterexample :
    alistGet (searchKwargs (Val.vint 0) (Val.vint 0) Val.vnull) "limit" = none ∧
    searchKwargs (Val.vint 0) (Val.vint 0) Val.vnull = [] ∧
    (searchReadKwargs (Val.vlist []) (Val.vint 0) (Val.vint 5)
      (Val.vstr "id desc")).map Prod.fst = ["fields", "limit", "order"] ∧
    (["fields", "limit", "order"] : List String) ≠ ["limit", "order"] :=
  ⟨rfl, rfl, rfl, by decide⟩

/-- Claim C2, amended: in every search / search-read operation each of the
optional parameters `offset` / `limit` / `order` is present in the outgoing
kwargs mapping exactly when its value is truthy (non-zero, non-empty, not
`None`), and then verbatim with the supplied value; parameters with falsy
values — in particular the defaults `0` / `None` / `None`, but also
caller-supplied falsy values — are absent.  Search-read additionally always
sends `fields` (defaulting to the empty list).  In particular, for
`limit=5, order="id desc"` and all other optionals at default, search sends
exactly `\x7blimit: 5, order: "id desc"\x7d` and search-read sends exactly
`\x7bfields: [], limit: 5, order: "id desc"\x7d`.  The final two conjuncts
tie the kwargs builders to the operations: each search dispatches to
`execute` with positional args `[domain, kwargs]`. -/
theorem claim_C2 :
    (∀ offset limit order : Val,
      alistGet (searchKwargs offset limit order) "offset" =
        (if truthy offset then some offset else none) ∧
      alistGet (searchKwargs offset limit order) "limit" =
        (if truthy limit then some limit else none) ∧
      alistGet (searchKwargs offset limit order) "order" =
        (if truthy order then some order else none)) ∧
    (∀ fields offset limit order : Val,
      searchReadKwargs fields offset limit order =
        ("fields", fields) :: searchKwargs offset limit order) ∧
    searchKwargs (Val.vint 0) (Val.vint 5) (Val.vstr "id desc") =
      [("limit", Val.vint 5), ("order", Val.vstr "id desc")] ∧
    searchReadKwargs (Val.vlist []) (Val.vint 0) (Val.vint 5) (Val.vstr "id desc") =
      [("fields", Val.vlist []), ("limit", Val.vint 5), ("order", Val.vstr "id desc")] ∧
    (∀ (t : XmlrpcTransport) (s : OdooAPI) (domain offset limit order : Val),
      search_leads_xmlrpc t s domain offset limit order =
        (match pyLen (xmlrpc_execute t s "crm.lead" "search"
            [domain, Val.vdict (searchKwargs offset limit order)]).1 with
         | some _ => xmlrpc_execute t s "crm.lead" "search"
            [domain, Val.vdict (searchKwargs offset limit order)]
         | none => (Val.vlist [], (xmlrpc_execute t s "crm.lead" "search"
            [domain, Val.vdict (searchKwargs offset limit order)]).2))) ∧
    (∀ (t : JsonrpcTransport) (s : OdooAPI) (domain fields offset limit order : Val),
      search_read_leads_jsonrpc t s domain fields offset limit order =
        (match pyLen (jsonrpc_execute t s "crm.lead" "search_read"
            [domain, Val.vdict (searchReadKwargs (fieldsOrEmpty fields) offset limit order)]).1 with
         | some _ => jsonrpc_execute t s "crm.lead" "search_read"
            [domain, Val.vdict (searchReadKwargs (fieldsOrEmpty fields) offset limit order)]
         | none => (Val.vlist [], (jsonrpc_execute t s "crm.lead" "search_read"
            [domain, Val.vdict (searchReadKwargs (fieldsOrEmpty fields) offset limit order)]).2))) := by
  refine ⟨?_, fun fields offset limit order => rfl, rfl, rfl,
    fun t s domain offset limit order => rfl,
    fun t s domain fields offset limit order => rfl⟩
  intro offset limit order
  refine ⟨?_, ?_, ?_⟩ <;>
    by_cases h1 : truthy offset <;> by_cases h2 : truthy limit <;>
      by_cases h3 : truthy order <;> simp [searchKwargs, alistGet, h1, h2, h3]

/-- Counterexample to claim C3 as stated, at the concrete input
`delete_leads_batch_xmlrpc` over the two-item id list `[7, 7]` with an
authenticated session and a transport whose `execute_kw` raises: the claim
requires the returned mapping to have exactly `n = 2` keys, one per input
item, each a boolean — but the code returns the one-key mapping
`\x7b7: None\x7d`: duplicate identifiers collapse onto one dict key, and the
stored per-item value is the verbatim single-record result, which is `None`
(not a boolean) when the underlying execute failed. -/
theorem claim_C3_counterexample :
    (delete_leads_batch_xmlrpc tExn sAuth [7, 7]).1 = [(7, Val.vnull)] ∧
    ((delete_leads_batch_xmlrpc tExn sAuth [7, 7]).1).length = 1 ∧
    (1 : Nat) ≠ 2 ∧
    isBool Val.vnull = false :=
  ⟨rfl, rfl, by decide, rfl⟩

/-- Claim C3, amended: every batch update / delete processes every input item
(no early halt) and its returned mapping has one key per distinct input
identifier, in first-occurrence order — hence exactly `n` keys whenever the
`n` input identifiers are distinct, which is always the case for update,
whose input is a Python dict.  The value stored at each key is the verbatim
result of that identifier's last single-record call (performed on the session
state as threaded up to that item): items are processed independently, with
no rollback and no early halt, but that per-item value is the single-record
operation's raw result — `None` rather than a boolean when the underlying
execute failed (see C5).  Conjuncts 1-3 state this for
`delete_leads_batch_xmlrpc` (key list, exactly-`n` under distinctness, and
the per-item value of an identifier not repeated later); conjuncts 4-6 for
`update_leads_batch_xmlrpc`; conjuncts 7-8 and 9-10 restate the key-list and
value facts for the two JSON-RPC variants. -/
theorem claim_C3 :
    (∀ (t : XmlrpcTransport) (s : OdooAPI) (ids : List Int),
      ((delete_leads_batch_xmlrpc t s ids).1).map Prod.fst = pyDictKeys ids) ∧
    (∀ (t : XmlrpcTransport) (s : OdooAPI) (ids : List Int), ids.Nodup →
      ((delete_leads_batch_xmlrpc t s ids).1).map Prod.fst = ids ∧
      ((delete_leads_batch_xmlrpc t s ids).1).length = ids.length) ∧
    (∀ (t : XmlrpcTransport) (s : OdooAPI) (pre : List Int) (x : Int) (post : List Int),
      x ∉ post →
      dictGetI ((delete_leads_batch_xmlrpc t s (pre ++ x :: post)).1) x =
        some (delete_lead_xmlrpc t (delete_leads_batch_xmlrpc t s pre).2 x).1) ∧
    (∀ (t : XmlrpcTransport) (s : OdooAPI) (us : List (Int × Val)),
      ((update_leads_batch_xmlrpc t s us).1).map Prod.fst = pyDictKeys (us.map Prod.fst)) ∧
    (∀ (t : XmlrpcTransport) (s : OdooAPI) (us : List (Int × Val)),
      (us.map Prod.fst).Nodup →
      ((update_leads_batch_xmlrpc t s us).1).map Prod.fst = us.map Prod.fst ∧
      ((update_leads_batch_xmlrpc t s us).1).length = us.length) ∧
    (∀ (t : XmlrpcTransport) (s : OdooAPI) (pre : List (Int × Val)) (x : Int × Val)
      (post : List (Int × Val)),
      x.1 ∉ post.map Prod.fst →
      dictGetI ((update_leads_batch_xmlrpc t s (pre ++ x :: post)).1) x.1 =
        some (update_lead_xmlrpc t (update_leads_batch_xmlrpc t s pre).2 x.1 x.2).1) ∧
    (∀ (t : JsonrpcTransport) (s : OdooAPI) (ids : List Int),
      ((delete_leads_batch_jsonrpc t s ids).1).map Prod.fst = pyDictKeys ids) ∧
    (∀ (t : JsonrpcTransport) (s : OdooAPI) (pre : List Int) (x : Int) (post : List Int),
      x ∉ post →
      dictGetI ((delete_leads_batch_jsonrpc t s (pre ++ x :: post)).1) x =
        some (delete_lead_jsonrpc t (delete_leads_batch_jsonrpc t s pre).2 x).1) ∧
    (∀ (t : JsonrpcTransport) (s : OdooAPI) (us : List (Int × Val)),
      ((update_leads_batch_jsonrpc t s us).1).map Prod.fst = pyDictKeys (us.map Prod.fst)) ∧
    (∀ (t : JsonrpcTransport) (s : OdooAPI) (pre : List (Int × Val)) (x : Int × Val)
      (post : List (Int × Val)),
      x.1 ∉ post.map Prod.fst →
      dictGetI ((update_leads_batch_jsonrpc t s (pre ++ x :: post)).1) x.1 =
        some (update_lead_jsonrpc t (update_leads_batch_jsonrpc t s pre).2 x.1 x.2).1) := by
  have keysD : ∀ {α : Type} (key : α → Int) (f : OdooAPI → α → Val × OdooAPI)
      (s : OdooAPI) (l : List α),
      ((batchDictGo key f s l []).1).map Prod.fst = pyDictKeys (l.map key) := by
    intro α key f s l
    rw [batchDictGo_keys]
    rfl
  have nodupD : ∀ {α : Type} (key : α → Int) (f : OdooAPI → α → Val × OdooAPI)
      (s : OdooAPI) (l : List α), (l.map key).Nodup →
      ((batchDictGo key f s l []).1).map Prod.fst = l.map key := by
    intro α key f s l hnd
    rw [batchDictGo_keys]
    have := foldl_insertKey_of_nodup (l.map key) [] hnd (by simp)
    simpa using this
  have lenD : ∀ {α : Type} (key : α → Int) (f : OdooAPI → α → Val × OdooAPI)
      (s : OdooAPI) (l : List α), (l.map key).Nodup →
      ((batchDictGo key f s l []).1).length = l.length := by
    intro α key f s l hnd
    have h := nodupD key f s l hnd
    have h2 := congrArg List.length h
    simpa using h2
  have getD : ∀ {α : Type} (key : α → Int) (f : OdooAPI → α → Val × OdooAPI)
      (s : OdooAPI) (pre : List α) (x : α) (post : List α),
      key x ∉ post.map key →
      dictGetI ((batchDictGo key f s (pre ++ x :: post) []).1) (key x) =
        some (f (batchDictGo key f s pre []).2 x).1 := by
    intro α key f s pre x post hx
    rw [batchDictGo_append]
    simp only [batchDictGo]
    rw [batchDictGo_get_of_notin key f post _ _ (key x)
      (fun it hit hEq => hx (hEq ▸ List.mem_map_of_mem key hit))]
    exact dictGetI_setI_self _ _ _
  refine ⟨?_, ?_, ?_, ?_, ?_, ?_, ?_, ?_, ?_, ?_⟩
  · intro t s ids
    have h := keysD (fun i => i) (fun s0 i => delete_lead_xmlrpc t s0 i) s ids
    simpa [delete_leads_batch_xmlrpc] using h
  · intro t s ids hnd
    constructor
    · have h := nodupD (fun i => i) (fun s0 i => delete_lead_xmlrpc t s0 i) s ids
        (by simpa using hnd)
      simpa [delete_leads_batch_xmlrpc] using h
    · have h := lenD (fun i => i) (fun s0 i => delete_lead_xmlrpc t s0 i) s ids
        (by simpa using hnd)
      simpa [delete_leads_batch_xmlrpc] using h
  · intro t s pre x post hx
    have h := getD (fun i => i) (fun s0 i => delete_lead_xmlrpc t s0 i) s pre x post
      (by simpa using hx)
    simpa [delete_leads_batch_xmlrpc] using h
  · intro t s us
    have h := keysD Prod.fst (fun s0 it => update_lead_xmlrpc t s0 it.1 it.2) s us
    simpa [update_leads_batch_xmlrpc] using h
  · intro t s us hnd
    constructor
    · have h := nodupD Prod.fst (fun s0 it => update_lead_xmlrpc t s0 it.1 it.2) s us hnd
      simpa [update_leads_batch_xmlrpc] using h
    · have h := lenD Prod.fst (fun s0 it => update_lead_xmlrpc t s0 it.1 it.2) s us hnd
      simpa [update_leads_batch_xmlrpc] using h
  · intro t s pre x post hx
    have h := getD Prod.fst (fun s0 it => update_lead_xmlrpc t s0 it.1 it.2) s pre x post hx
    simpa [update_leads_batch_xmlrpc] using h
  · intro t s ids
    have h := keysD (fun i => i) (fun s0 i => delete_lead_jsonrpc t s0 i) s ids
    simpa [delete_leads_batch_jsonrpc] using h
  · intro t s pre x post hx
    have h := getD (fun i => i) (fun s0 i => delete_lead_jsonrpc t s0 i) s pre x post
      (by simpa using hx)
    simpa [delete_leads_batch_jsonrpc] using h
  · intro t s us
    have h := keysD Prod.fst (fun s0 it => update_lead_jsonrpc t s0 it.1 it.2) s us
    simpa [update_leads_batch_jsonrpc] using h
  · intro t s pre x post hx
    have h := getD Prod.fst (fun s0 it => update_lead_jsonrpc t s0 it.1 it.2) s pre x post hx
    simpa [update_leads_batch_jsonrpc] using h

/-- Witness for C3's hypotheses at concrete inputs: the distinct id list
`[3, 4]` (exactly 2 keys) and the per-item value of id `4` preceded by `[3]`
with nothing after it. -/
theorem claim_C3_witness :
    (((delete_leads_batch_xmlrpc tExn sAuth [3, 4]).1).map Prod.fst = [3, 4] ∧
     ((delete_leads_batch_xmlrpc tExn sAuth [3, 4]).1).length = 2) ∧
    dictGetI ((delete_leads_batch_xmlrpc tExn sAuth ([3] ++ 4 :: [])).1) 4 =
      some (delete_lead_xmlrpc tExn (delete_leads_batch_xmlrpc tExn sAuth [3]).2 4).1 ∧
    dictGetI ((update_leads_batch_xmlrpc tExn sAuth
        ([] ++ (5, Val.vdict []) :: [])).1) 5 =
      some (update_lead_xmlrpc tExn
        (update_leads_batch_xmlrpc tExn sAuth []).2 5 (Val.vdict [])).1 :=
  ⟨claim_C3.2.1 tExn sAuth [3, 4] (by decide),
   claim_C3.2.2.1 tExn sAuth [3] 4 [] (by decide),
   claim_C3.2.2.2.2.2.1 tExn sAuth [] (5, Val.vdict []) [] (by decide)⟩

/-- Claim C4: for every batch create (`create_leads_batch_xmlrpc` /
`create_leads_batch_jsonrpc`), the single-record create is invoked once per
input item in the order given (the per-item result list `batchResultsList`,
threaded exactly as the loop threads the session state, has one entry per
input), and the returned list is precisely the sublist of truthy per-item
results in input order — i.e. exactly the `k` identifiers of the successful
inputs, order-preserved, where an input succeeds when its create returns a
(truthy) identifier and fails when it returns the `None` sentinel. -/
theorem claim_C4 :
    (∀ (t : XmlrpcTransport) (s : OdooAPI) (ds : List Val),
      (create_leads_batch_xmlrpc t s ds).1 =
        (batchResultsList (fun s0 d => create_lead_xmlrpc t s0 d) s ds).filter
          (fun v => truthy v)) ∧
    (∀ (t : XmlrpcTransport) (s : OdooAPI) (ds : List Val),
      (batchResultsList (fun s0 d => create_lead_xmlrpc t s0 d) s ds).length =
        ds.length) ∧
    (∀ (t : JsonrpcTransport) (s : OdooAPI) (ds : List Val),
      (create_leads_batch_jsonrpc t s ds).1 =
        (batchResultsList (fun s0 d => create_lead_jsonrpc t s0 d) s ds).filter
          (fun v => truthy v)) ∧
    (∀ (t : JsonrpcTransport) (s : OdooAPI) (ds : List Val),
      (batchResultsList (fun s0 d => create_lead_jsonrpc t s0 d) s ds).length =
        ds.length) := by
  refine ⟨?_, ?_, ?_, ?_⟩
  · intro t s ds
    have h := batchListGo_eq (fun s0 d => create_lead_xmlrpc t s0 d) ds s []
    simpa [create_leads_batch_xmlrpc] using h
  · intro t s ds
    exact batchResultsList_length _ ds s
  · intro t s ds
    have h := batchListGo_eq (fun s0 d => create_lead_jsonrpc t s0 d) ds s []
    simpa [create_leads_batch_jsonrpc] using h
  · intro t s ds
    exact batchResultsList_length _ ds s

/-- Claim C5, evaluated at the failing input: on an authenticated session
whose transport `execute_kw` raises (transport `tExn`), `create_lead_xmlrpc`
and `read_lead_xmlrpc` return the sentinel `None` as the claim states, but
`update_lead_xmlrpc` and `delete_lead_xmlrpc` also return `None` — not a
boolean — because they return the `execute` result verbatim
(`return result`, line 332 / 377) while `execute` converts the exception to
`None`; the `except` branches that would return `False` (lines 333-335 /
378-380) are unreachable since `xmlrpc_execute` never raises.  This
contradicts the claim, the functions' own docstrings ("bool: True if
successful, False otherwise") and their `-> bool` annotations. -/
theorem claim_C5_bug :
    create_lead_xmlrpc tExn sAuth (Val.vdict [("name", Val.vstr "X")]) =
      (Val.vnull, sAuth) ∧
    read_lead_xmlrpc tExn sAuth 1 Val.vnull = (Val.vnull, sAuth) ∧
    update_lead_xmlrpc tExn sAuth 1 (Val.vdict [("name", Val.vstr "X")]) =
      (Val.vnull, sAuth) ∧
    delete_lead_xmlrpc tExn sAuth 1 = (Val.vnull, sAuth) ∧
    isBool Val.vnull = false :=
  ⟨rfl, rfl, rfl, rfl, rfl⟩

/-- Claim C6: every transport-level exception and every protocol-level error
payload is caught and converted into the operation's failure result, and no
exception propagates (the embedded operations are total functions with no
exception outcome).  Conjuncts 1-5: on an authenticated session,
`xmlrpc_execute` converts a raised `execute_kw` to `None`, and
`jsonrpc_execute` converts a raised post, a non-200 status, a malformed
response body (`response.json()` raising), and a well-formed envelope
carrying an `error` payload, each to `None`.  Conjuncts 6-11: the derived
operations convert the underlying failure into their own failure results —
`None` for create and read, the verbatim falsy `None` of `execute` for
update and delete (see C5 for the divergence from their documented boolean),
and the empty list for search and search-read. -/
theorem claim_C6 :
    (∀ (t : XmlrpcTransport) (s : OdooAPI) (model method : String) (args : List Val),
      truthy s.uid = true → s.xmlrpc_models = true →
      t.execute_kw s.db s.uid s.password model method args = TResult.exn →
      xmlrpc_execute t s model method args = (Val.vnull, s)) ∧
    (∀ (t : JsonrpcTransport) (s : OdooAPI) (model method : String) (args : List Val),
      truthy s.uid = true →
      t.call s.db s.uid s.password model method args
        (if truthy s.session_id then s.session_id else Val.vnull) = HttpResult.exn →
      jsonrpc_execute t s model method args = (Val.vnull, s)) ∧
    (∀ (t : JsonrpcTransport) (s : OdooAPI) (model method : String) (args : List Val)
      (status : Nat) (jsonExn : Bool) (body cookie : Val),
      truthy s.uid = true →
      t.call s.db s.uid s.password model method args
        (if truthy s.session_id then s.session_id else Val.vnull) =
        HttpResult.resp status jsonExn body cookie →
      status ≠ 200 →
      jsonrpc_execute t s model method args = (Val.vnull, s)) ∧
    (∀ (t : JsonrpcTransport) (s : OdooAPI) (model method : String) (args : List Val)
      (body cookie : Val),
      truthy s.uid = true →
      t.call s.db s.uid s.password model method args
        (if truthy s.session_id then s.session_id else Val.vnull) =
        HttpResult.resp 200 true body cookie →
      jsonrpc_execute t s model method args = (Val.vnull, s)) ∧
    (∀ (t : JsonrpcTransport) (s : OdooAPI) (model method : String) (args : List Val)
      (body cookie e : Val),
      truthy s.uid = true →
      t.call s.db s.uid s.password model method args
        (if truthy s.session_id then s.session_id else Val.vnull) =
        HttpResult.resp 200 false body cookie →
      dictGet body "result" = none →
      dictGet body "error" = some e →
      jsonrpc_execute t s model method args = (Val.vnull, s)) ∧
    (∀ (t : XmlrpcTransport) (s : OdooAPI) (d : Val),
      truthy s.uid = true → s.xmlrpc_models = true →
      t.execute_kw s.db s.uid s.password "crm.lead" "create" [Val.vlist [d]] =
        TResult.exn →
      create_lead_xmlrpc t s d = (Val.vnull, s)) ∧
    (∀ (t : XmlrpcTransport) (s : OdooAPI) (lead_id : Int) (fields : Val),
      truthy s.uid = true → s.xmlrpc_models = true →
      t.execute_kw s.db s.uid s.password "crm.lead" "read"
        [Val.vlist [Val.vint lead_id], Val.vdict [("fields", fieldsOrEmpty fields)]] =
        TResult.exn →
      read_lead_xmlrpc t s lead_id fields = (Val.vnull, s)) ∧
    (∀ (t : XmlrpcTransport) (s : OdooAPI) (lead_id : Int) (d : Val),
      truthy s.uid = true → s.xmlrpc_models = true →
      t.execute_kw s.db s.uid s.password "crm.lead" "write"
        [Val.vlist [Val.vint lead_id], d] = TResult.exn →
      update_lead_xmlrpc t s lead_id d = (Val.vnull, s)) ∧
    (∀ (t : XmlrpcTransport) (s : OdooAPI) (lead_id : Int),
      truthy s.uid = true → s.xmlrpc_models = true →
      t.execute_kw s.db s.uid s.password "crm.lead" "unlink"
        [Val.vlist [Val.vint lead_id]] = TResult.exn →
      delete_lead_xmlrpc t s lead_id = (Val.vnull, s)) ∧
    (∀ (t : XmlrpcTransport) (s : OdooAPI) (domain offset limit order : Val),
      truthy s.uid = true → s.xmlrpc_models = true →
      t.execute_kw s.db s.uid s.password "crm.lead" "search"
        [domain, Val.vdict (searchKwargs offset limit order)] = TResult.exn →
      search_leads_xmlrpc t s domain offset limit order = (Val.vlist [], s)) ∧
    (∀ (t : XmlrpcTransport) (s : OdooAPI) (domain fields offset limit order : Val),
      truthy s.uid = true → s.xmlrpc_models = true →
      t.execute_kw s.db s.uid s.password "crm.lead" "search_read"
        [domain, Val.vdict (searchReadKwargs (fieldsOrEmpty fields) offset limit order)] =
        TResult.exn →
      search_read_leads_xmlrpc t s domain fields offset limit order =
        (Val.vlist [], s)) := by
  refine ⟨?_, ?_, ?_, ?_, ?_, ?_, ?_, ?_, ?_, ?_, ?_⟩
  · intro t s model method args h1 h2 hexn
    have he := xmlrpc_execute_of_auth t s model method args h1 h2
    rw [hexn] at he
    exact he
  · intro t s model method args h1 hcall
    have he := jsonrpc_execute_of_auth t s model method args h1
    rw [hcall] at he
    exact he
  · intro t s model method args status jsonExn body cookie h1 hcall hst
    have he := jsonrpc_execute_of_auth t s model method args h1
    rw [hcall] at he
    simpa [hst] using he
  · intro t s model method args body cookie h1 hcall
    have he := jsonrpc_execute_of_auth t s model method args h1
    rw [hcall] at he
    simpa using he
  · intro t s model method args body cookie e h1 hcall hres herr
    have he := jsonrpc_execute_of_auth t s model method args h1
    rw [hcall] at he
    simpa [hres] using he
  · intro t s d h1 h2 hexn
    have he := xmlrpc_execute_of_auth t s "crm.lead" "create" [Val.vlist [d]] h1 h2
    rw [hexn] at he
    simpa [create_lead_xmlrpc] using he
  · intro t s lead_id fields h1 h2 hexn
    have he := xmlrpc_execute_of_auth t s "crm.lead" "read"
      [Val.vlist [Val.vint lead_id], Val.vdict [("fields", fieldsOrEmpty fields)]] h1 h2
    rw [hexn] at he
    simp [read_lead_xmlrpc, he, truthy]
  · intro t s lead_id d h1 h2 hexn
    have he := xmlrpc_execute_of_auth t s "crm.lead" "write"
      [Val.vlist [Val.vint lead_id], d] h1 h2
    rw [hexn] at he
    simpa [update_lead_xmlrpc] using he
  · intro t s lead_id h1 h2 hexn
    have he := xmlrpc_execute_of_auth t s "crm.lead" "unlink"
      [Val.vlist [Val.vint lead_id]] h1 h2
    rw [hexn] at he
    simpa [delete_lead_xmlrpc] using he
  · intro t s domain offset limit order h1 h2 hexn
    have he := xmlrpc_execute_of_auth t s "crm.lead" "search"
      [domain, Val.vdict (searchKwargs offset limit order)] h1 h2
    rw [hexn] at he
    simp [search_leads_xmlrpc, he, pyLen]
  · intro t s domain fields offset limit order h1 h2 hexn
    have he := xmlrpc_execute_of_auth t s "crm.lead" "search_read"
      [domain, Val.vdict (searchReadKwargs (fieldsOrEmpty fields) offset limit order)] h1 h2
    rw [hexn] at he
    simp [search_read_leads_xmlrpc, he, pyLen]

/-- Witness for C6 at the concrete failing transports `tExn` (raising
XML-RPC `execute_kw`), `jExn` (raising JSON-RPC post) and `jErr` (well-formed
envelope with an `error` payload), on the authenticated session `sAuth`. -/
theorem claim_C6_witness :
    xmlrpc_execute tExn sAuth "crm.lead" "create" [] = (Val.vnull, sAuth) ∧
    jsonrpc_execute jExn sAuth "crm.lead" "create" [] = (Val.vnull, sAuth) ∧
    jsonrpc_execute jErr sAuth "crm.lead" "create" [] = (Val.vnull, sAuth) ∧
    update_lead_xmlrpc tExn sAuth 1 (Val.vdict []) = (Val.vnull, sAuth) ∧
    search_leads_xmlrpc tExn sAuth (Val.vlist []) (Val.vint 0) Val.vnull Val.vnull =
      (Val.vlist [], sAuth) :=
  ⟨claim_C6.1 tExn sAuth "crm.lead" "create" [] rfl rfl rfl,
   claim_C6.2.1 jExn sAuth "crm.lead" "create" [] rfl rfl,
   claim_C6.2.2.2.2.1 jErr sAuth "crm.lead" "create" []
     (Val.vdict [("error", Val.vstr "boom")]) Val.vnull (Val.vstr "boom") rfl rfl rfl rfl,
   claim_C6.2.2.2.2.2.2.2.1 tExn sAuth 1 (Val.vdict []) rfl rfl rfl,
   claim_C6.2.2.2.2.2.2.2.2.2.1 tExn sAuth (Val.vlist []) (Val.vint 0) Val.vnull
     Val.vnull rfl rfl rfl⟩

/-- Claim C7: the extraction-parse step of the lead-capture assistant.  First
conjunct: on the response text `Here is the info: \x7b"name":"Alice",
"email":"a@x.com","phone":null,"requirements":"CRM demo"\x7d Thanks`, the
regex search followed by `json.loads` yields exactly the embedded JSON
object.  Second conjunct: on any response text with no brace-delimited
substring (no open brace followed by a close brace), the regex finds no
match, the user-visible error path (`st.error("Failed to extract
information.")`) triggers, and no remote create call is attempted (the
attempted-create counter is 0 — the whole Odoo block, including
authentication, is skipped). -/
theorem claim_C7 :
    extractParse sampleExtractionText = some sampleExtractedVal ∧
    (∀ (t : ChatOdoo) (db username password : String) (text : List Char),
      hasBracePair text = false →
      braceSearch text = none ∧
      processExtraction t db username password text =
        (LeadOutcome.extractFailed, 0)) := by
  refine ⟨rfl, ?_⟩
  intro t db username password text h
  have hb := braceSearch_eq_none_of text h
  exact ⟨hb, by simp [processExtraction, hb]⟩

/-- Witness for C7's second conjunct at a concrete brace-free response
text. -/
theorem claim_C7_witness :
    braceSearch (String.data "Sorry, I could not find any structured data.") = none ∧
    processExtraction cOk "odoo" "admin" "admin"
      (String.data "Sorry, I could not find any structured data.") =
      (LeadOutcome.extractFailed, 0) :=
  claim_C7.2 cOk "odoo" "admin" "admin"
    (String.data "Sorry, I could not find any structured data.") rfl

/-- Claim C8: every execute on a not-yet-authenticated session (falsy `uid`)
first performs the corresponding authenticate implicitly.  If that implicit
authentication fails, the operation returns the sentinel `None` without
dispatching the remote method call — the conclusion holds for every
behaviour of `execute_kw` / of the post, which is therefore never consulted
— and the session is left in the post-authentication state.  If it succeeds,
the resulting `uid` is truthy, the call is dispatched as
`execute_kw(db, new-uid, password, model, method, args)`, and executing on
the original session coincides with executing on the post-authentication
session. -/
theorem claim_C8 :
    (∀ (t : XmlrpcTransport) (s : OdooAPI) (model method : String) (args : List Val),
      truthy s.uid = false →
      ((xmlrpc_authenticate t s).1 = false →
        xmlrpc_execute t s model method args =
          (Val.vnull, (xmlrpc_authenticate t s).2)) ∧
      ((xmlrpc_authenticate t s).1 = true →
        truthy (xmlrpc_authenticate t s).2.uid = true ∧
        xmlrpc_execute t s model method args =
          (match t.execute_kw s.db (xmlrpc_authenticate t s).2.uid s.password
              model method args with
           | TResult.ok v => (v, (xmlrpc_authenticate t s).2)
           | TResult.exn => (Val.vnull, (xmlrpc_authenticate t s).2)) ∧
        xmlrpc_execute t s model method args =
          xmlrpc_execute t (xmlrpc_authenticate t s).2 model method args)) ∧
    (∀ (t : JsonrpcTransport) (s : OdooAPI) (model method : String) (args : List Val),
      truthy s.uid = false →
      ((jsonrpc_authenticate t s).1 = false →
        jsonrpc_execute t s model method args =
          (Val.vnull, (jsonrpc_authenticate t s).2)) ∧
      ((jsonrpc_authenticate t s).1 = true →
        truthy (jsonrpc_authenticate t s).2.uid = true ∧
        jsonrpc_execute t s model method args =
          jsonrpc_execute t (jsonrpc_authenticate t s).2 model method args)) := by
  constructor
  · intro t s model method args h
    have he := xmlrpc_execute_of_unauth t s model method args h
    constructor
    · intro hA1
      simpa [hA1] using he
    · intro hA1
      have hau := xmlrpc_authenticate_true t s hA1
      simp only [hA1, if_true] at he
      refine ⟨hau.1, ?_, ?_⟩
      · rw [xmlrpc_authenticate_db t s, xmlrpc_authenticate_password t s] at he
        exact he
      · have he2 := xmlrpc_execute_of_auth t (xmlrpc_authenticate t s).2
          model method args hau.1 hau.2
        exact he.trans he2.symm
  · intro t s model method args h
    have he := jsonrpc_execute_of_unauth t s model method args h
    constructor
    · intro hA1
      simpa [hA1] using he
    · intro hA1
      have hau := jsonrpc_authenticate_true t s hA1
      simp only [hA1, if_true] at he
      refine ⟨hau, ?_⟩
      have he2 := jsonrpc_execute_of_auth t (jsonrpc_authenticate t s).2
        model method args hau
      exact he.trans he2.symm

/-- Witness for C8 at the concrete transports `tAuthFalse` (implicit
authentication fails), `tOk` and `jOk` (implicit authentication succeeds), on
the fresh (unauthenticated) session. -/
theorem claim_C8_witness :
    (xmlrpc_execute tAuthFalse sFresh "crm.lead" "create" [Val.vdict []] =
      (Val.vnull, (xmlrpc_authenticate tAuthFalse sFresh).2)) ∧
    (truthy (xmlrpc_authenticate tOk sFresh).2.uid = true ∧
     xmlrpc_execute tOk sFresh "crm.lead" "create" [Val.vdict []] =
       (match tOk.execute_kw sFresh.db (xmlrpc_authenticate tOk sFresh).2.uid
           sFresh.password "crm.lead" "create" [Val.vdict []] with
        | TResult.ok v => (v, (xmlrpc_authenticate tOk sFresh).2)
        | TResult.exn => (Val.vnull, (xmlrpc_authenticate tOk sFresh).2)) ∧
     xmlrpc_execute tOk sFresh "crm.lead" "create" [Val.vdict []] =
       xmlrpc_execute tOk (xmlrpc_authenticate tOk sFresh).2 "crm.lead" "create"
         [Val.vdict []]) ∧
    (truthy (jsonrpc_authenticate jOk sFresh).2.uid = true ∧
     jsonrpc_execute jOk sFresh "crm.lead" "create" [Val.vdict []] =
       jsonrpc_execute jOk (jsonrpc_authenticate jOk sFresh).2 "crm.lead" "create"
         [Val.vdict []]) :=
  ⟨(claim_C8.1 tAuthFalse sFresh "crm.lead" "create" [Val.vdict []] rfl).1 rfl,
   (claim_C8.1 tOk sFresh "crm.lead" "create" [Val.vdict []] rfl).2 rfl,
   (claim_C8.2 jOk sFresh "crm.lead" "create" [Val.vdict []] rfl).2 rfl⟩

/-- Claim C9: whenever the underlying execute returns the failure sentinel
`None`, the search and search-read operations return the empty list, never
`None`: `len(None)` raises a `TypeError` inside the guarded block and the
handler returns `[]`. -/
theorem claim_C9 :
    (∀ (t : XmlrpcTransport) (s s1 : OdooAPI) (domain offset limit order : Val),
      xmlrpc_execute t s "crm.lead" "search"
        [domain, Val.vdict (searchKwargs offset limit order)] = (Val.vnull, s1) →
      search_leads_xmlrpc t s domain offset limit order = (Val.vlist [], s1)) ∧
    (∀ (t : XmlrpcTransport) (s s1 : OdooAPI) (domain fields offset limit order : Val),
      xmlrpc_execute t s "crm.lead" "search_read"
        [domain, Val.vdict (searchReadKwargs (fieldsOrEmpty fields) offset limit order)] =
        (Val.vnull, s1) →
      search_read_leads_xmlrpc t s domain fields offset limit order =
        (Val.vlist [], s1)) ∧
    (∀ (t : JsonrpcTransport) (s s1 : OdooAPI) (domain offset limit order : Val),
      jsonrpc_execute t s "crm.lead" "search"
        [domain, Val.vdict (searchKwargs offset limit order)] = (Val.vnull, s1) →
      search_leads_jsonrpc t s domain offset limit order = (Val.vlist [], s1)) ∧
    (∀ (t : JsonrpcTransport) (s s1 : OdooAPI) (domain fields offset limit order : Val),
      jsonrpc_execute t s "crm.lead" "search_read"
        [domain, Val.vdict (searchReadKwargs (fieldsOrEmpty fields) offset limit order)] =
        (Val.vnull, s1) →
      search_read_leads_jsonrpc t s domain fields offset limit order =
        (Val.vlist [], s1)) := by
  refine ⟨?_, ?_, ?_, ?_⟩
  · intro t s s1 domain offset limit order h
    simp [search_leads_xmlrpc, h, pyLen]
  · intro t s s1 domain fields offset limit order h
    simp [search_read_leads_xmlrpc, h, pyLen]
  · intro t s s1 domain offset limit order h
    simp [search_leads_jsonrpc, h, pyLen]
  · intro t s s1 domain fields offset limit order h
    simp [search_read_leads_jsonrpc, h, pyLen]

/-- Witness for C9 at the concrete raising transports on the authenticated
session. -/
theorem claim_C9_witness :
    search_leads_xmlrpc tExn sAuth (Val.vlist []) (Val.vint 0) Val.vnull Val.vnull =
      (Val.vlist [], sAuth) ∧
    search_read_leads_jsonrpc jExn sAuth (Val.vlist []) Val.vnull (Val.vint 0)
      Val.vnull Val.vnull = (Val.vlist [], sAuth) :=
  ⟨claim_C9.1 tExn sAuth sAuth (Val.vlist []) (Val.vint 0) Val.vnull Val.vnull rfl,
   claim_C9.2.2.2 jExn sAuth sAuth (Val.vlist []) Val.vnull (Val.vint 0) Val.vnull
     Val.vnull rfl⟩

theorem xmlrpc_execute_snd_of_auth (t : XmlrpcTransport) (s : OdooAPI)
    (model method : String) (args : List Val)
    (h1 : truthy s.uid = true) (h2 : s.xmlrpc_models = true) :
    (xmlrpc_execute t s model method args).2 = s := by
  rw [xmlrpc_execute_of_auth t s model method args h1 h2]
  rcases t.execute_kw s.db s.uid s.password model method args with v | _ <;> rfl

theorem jsonrpc_execute_snd_of_auth (t : JsonrpcTransport) (s : OdooAPI)
    (model method : String) (args : List Val)
    (h : truthy s.uid = true) :
    (jsonrpc_execute t s model method args).2 = s := by
  rw [jsonrpc_execute_of_auth t s model method args h]
  repeat' split
  all_goals rfl

theorem read_lead_xmlrpc_snd (t : XmlrpcTransport) (s : OdooAPI)
    (lead_id : Int) (fields : Val) :
    (read_lead_xmlrpc t s lead_id fields).2 =
      (xmlrpc_execute t s "crm.lead" "read"
        [Val.vlist [Val.vint lead_id], Val.vdict [("fields", fieldsOrEmpty fields)]]).2 := by
  simp only [read_lead_xmlrpc]
  repeat' split
  all_goals rfl

theorem read_lead_jsonrpc_snd (t : JsonrpcTransport) (s : OdooAPI)
    (lead_id : Int) (fields : Val) :
    (read_lead_jsonrpc t s lead_id fields).2 =
      (jsonrpc_execute t s "crm.lead" "read"
        [Val.vlist [Val.vint lead_id], Val.vdict [("fields", fieldsOrEmpty fields)]]).2 := by
  simp only [read_lead_jsonrpc]
  repeat' split
  all_goals rfl

theorem search_leads_xmlrpc_snd (t : XmlrpcTransport) (s : OdooAPI)
    (domain offset limit order : Val) :
    (search_leads_xmlrpc t s domain offset limit order).2 =
      (xmlrpc_execute t s "crm.lead" "search"
        [domain, Val.vdict (searchKwargs offset limit order)]).2 := by
  simp only [search_leads_xmlrpc]
  repeat' split
  all_goals rfl

theorem search_leads_jsonrpc_snd (t : JsonrpcTransport) (s : OdooAPI)
    (domain offset limit order : Val) :
    (search_leads_jsonrpc t s domain offset limit order).2 =
      (jsonrpc_execute t s "crm.lead" "search"
        [domain, Val.vdict (searchKwargs offset limit order)]).2 := by
  simp only [search_leads_jsonrpc]
  repeat' split
  all_goals rfl

theorem search_read_leads_xmlrpc_snd (t : XmlrpcTransport) (s : OdooAPI)
    (domain fields offset limit order : Val) :
    (search_read_leads_xmlrpc t s domain fields offset limit order).2 =
      (xmlrpc_execute t s "crm.lead" "search_read"
        [domain, Val.vdict (searchReadKwargs (fieldsOrEmpty fields) offset limit order)]).2 := by
  simp only [search_read_leads_xmlrpc]
  repeat' split
  all_goals rfl

theorem search_read_leads_jsonrpc_snd (t : JsonrpcTransport) (s : OdooAPI)
    (domain fields offset limit order : Val) :
    (search_read_leads_jsonrpc t s domain fields offset limit order).2 =
      (jsonrpc_execute t s "crm.lead" "search_read"
        [domain, Val.vdict (searchReadKwargs (fieldsOrEmpty fields) offset limit order)]).2 := by
  simp only [search_read_leads_jsonrpc]
  repeat' split
  all_goals rfl

/-- No `OdooAPI` operation ever changes the construction-time connection
fields `url`, `db`, `username`, `password` — one conjunct per operation of
the embedding, over every transport, session state, argument and outcome. -/
theorem frame_core_all :
    (∀ (t : XmlrpcTransport) (s : OdooAPI),
      coreOf (xmlrpc_authenticate t s).2 = coreOf s) ∧
    (∀ (t : JsonrpcTransport) (s : OdooAPI),
      coreOf (jsonrpc_authenticate t s).2 = coreOf s) ∧
    (∀ (t : XmlrpcTransport) (s : OdooAPI) (model method : String) (args : List Val),
      coreOf (xmlrpc_execute t s model method args).2 = coreOf s) ∧
    (∀ (t : JsonrpcTransport) (s : OdooAPI) (model method : String) (args : List Val),
      coreOf (jsonrpc_execute t s model method args).2 = coreOf s) ∧
    (∀ (t : XmlrpcTransport) (s : OdooAPI) (d : Val),
      coreOf (create_lead_xmlrpc t s d).2 = coreOf s) ∧
    (∀ (t : JsonrpcTransport) (s : OdooAPI) (d : Val),
      coreOf (create_lead_jsonrpc t s d).2 = coreOf s) ∧
    (∀ (t : XmlrpcTransport) (s : OdooAPI) (lead_id : Int) (fields : Val),
      coreOf (read_lead_xmlrpc t s lead_id fields).2 = coreOf s) ∧
    (∀ (t : JsonrpcTransport) (s : OdooAPI) (lead_id : Int) (fields : Val),
      coreOf (read_lead_jsonrpc t s lead_id fields).2 = coreOf s) ∧
    (∀ (t : XmlrpcTransport) (s : OdooAPI) (lead_id : Int) (d : Val),
      coreOf (update_lead_xmlrpc t s lead_id d).2 = coreOf s) ∧
    (∀ (t : JsonrpcTransport) (s : OdooAPI) (lead_id : Int) (d : Val),
      coreOf (update_lead_jsonrpc t s lead_id d).2 = coreOf s) ∧
    (∀ (t : XmlrpcTransport) (s : OdooAPI) (lead_id : Int),
      coreOf (delete_lead_xmlrpc t s lead_id).2 = coreOf s) ∧
    (∀ (t : JsonrpcTransport) (s : OdooAPI) (lead_id : Int),
      coreOf (delete_lead_jsonrpc t s lead_id).2 = coreOf s) ∧
    (∀ (t : XmlrpcTransport) (s : OdooAPI) (domain offset limit order : Val),
      coreOf (search_leads_xmlrpc t s domain offset limit order).2 = coreOf s) ∧
    (∀ (t : JsonrpcTransport) (s : OdooAPI) (domain offset limit order : Val),
      coreOf (search_leads_jsonrpc t s domain offset limit order).2 = coreOf s) ∧
    (∀ (t : XmlrpcTransport) (s : OdooAPI) (domain fields offset limit order : Val),
      coreOf (search_read_leads_xmlrpc t s domain fields offset limit order).2 =
        coreOf s) ∧
    (∀ (t : JsonrpcTransport) (s : OdooAPI) (domain fields offset limit order : Val),
      coreOf (search_read_leads_jsonrpc t s domain fields offset limit order).2 =
        coreOf s) ∧
    (∀ (t : XmlrpcTransport) (s : OdooAPI) (ds : List Val),
      coreOf (create_leads_batch_xmlrpc t s ds).2 = coreOf s) ∧
    (∀ (t : JsonrpcTransport) (s : OdooAPI) (ds : List Val),
      coreOf (create_leads_batch_jsonrpc t s ds).2 = coreOf s) ∧
    (∀ (t : XmlrpcTransport) (s : OdooAPI) (us : List (Int × Val)),
      coreOf (update_leads_batch_xmlrpc t s us).2 = coreOf s) ∧
    (∀ (t : JsonrpcTransport) (s : OdooAPI) (us : List (Int × Val)),
      coreOf (update_leads_batch_jsonrpc t s us).2 = coreOf s) ∧
    (∀ (t : XmlrpcTransport) (s : OdooAPI) (ids : List Int),
      coreOf (delete_leads_batch_xmlrpc t s ids).2 = coreOf s) ∧
    (∀ (t : JsonrpcTransport) (s : OdooAPI) (ids : List Int),
      coreOf (delete_leads_batch_jsonrpc t s ids).2 = coreOf s) := by
  refine ⟨xmlrpc_authenticate_core, jsonrpc_authenticate_core, xmlrpc_execute_core,
    jsonrpc_execute_core, ?_, ?_, ?_, ?_, ?_, ?_, ?_, ?_, ?_, ?_, ?_, ?_, ?_, ?_,
    ?_, ?_, ?_, ?_⟩
  · intro t s d
    exact xmlrpc_execute_core t s "crm.lead" "create" [Val.vlist [d]]
  · intro t s d
    exact jsonrpc_execute_core t s "crm.lead" "create" [Val.vlist [d]]
  · intro t s lead_id fields
    rw [read_lead_xmlrpc_snd]
    exact xmlrpc_execute_core t s "crm.lead" "read" _
  · intro t s lead_id fields
    rw [read_lead_jsonrpc_snd]
    exact jsonrpc_execute_core t s "crm.lead" "read" _
  · intro t s lead_id d
    exact xmlrpc_execute_core t s "crm.lead" "write" [Val.vlist [Val.vint lead_id], d]
  · intro t s lead_id d
    exact jsonrpc_execute_core t s "crm.lead" "write" [Val.vlist [Val.vint lead_id], d]
  · intro t s lead_id
    exact xmlrpc_execute_core t s "crm.lead" "unlink" [Val.vlist [Val.vint lead_id]]
  · intro t s lead_id
    exact jsonrpc_execute_core t s "crm.lead" "unlink" [Val.vlist [Val.vint lead_id]]
  · intro t s domain offset limit order
    rw [search_leads_xmlrpc_snd]
    exact xmlrpc_execute_core t s "crm.lead" "search" _
  · intro t s domain offset limit order
    rw [search_leads_jsonrpc_snd]
    exact jsonrpc_execute_core t s "crm.lead" "search" _
  · intro t s domain fields offset limit order
    rw [search_read_leads_xmlrpc_snd]
    exact xmlrpc_execute_core t s "crm.lead" "search_read" _
  · intro t s domain fields offset limit order
    rw [search_read_leads_jsonrpc_snd]
    exact jsonrpc_execute_core t s "crm.lead" "search_read" _
  · intro t s ds
    exact batchListGo_core _ (fun s0 d =>
      xmlrpc_execute_core t s0 "crm.lead" "create" [Val.vlist [d]]) ds s []
  · intro t s ds
    exact batchListGo_core _ (fun s0 d =>
      jsonrpc_execute_core t s0 "crm.lead" "create" [Val.vlist [d]]) ds s []
  · intro t s us
    exact batchDictGo_core Prod.fst _ (fun s0 it =>
      xmlrpc_execute_core t s0 "crm.lead" "write" [Val.vlist [Val.vint it.1], it.2])
      us s []
  · intro t s us
    exact batchDictGo_core Prod.fst _ (fun s0 it =>
      jsonrpc_execute_core t s0 "crm.lead" "write" [Val.vlist [Val.vint it.1], it.2])
      us s []
  · intro t s ids
    exact batchDictGo_core (fun i => i) _ (fun s0 i =>
      xmlrpc_execute_core t s0 "crm.lead" "unlink" [Val.vlist [Val.vint i]]) ids s []
  · intro t s ids
    exact batchDictGo_core (fun i => i) _ (fun s0 i =>
      jsonrpc_execute_core t s0 "crm.lead" "unlink" [Val.vlist [Val.vint i]]) ids s []

/-- Claim C10: first half — for every operation and every outcome, the
session fields `url`, `db`, `username`, `password` (bundled as `coreOf`) are
unchanged from their construction-time values, for each of the 22 operations
of the embedding.  Second half — the remaining session fields (`uid`,
`session_id`, the proxy handles) are mutated only by the authenticate
operations, implicit authentication during execute included: on a session
that is already authenticated (truthy `uid`, and for XML-RPC a set models
proxy), execute and every operation derived from it leave the session state
entirely unchanged, so every mutation happens inside an authenticate call. -/
theorem claim_C10 :
    ((∀ (t : XmlrpcTransport) (s : OdooAPI),
      coreOf (xmlrpc_authenticate t s).2 = coreOf s) ∧
    (∀ (t : JsonrpcTransport) (s : OdooAPI),
      coreOf (jsonrpc_authenticate t s).2 = coreOf s) ∧
    (∀ (t : XmlrpcTransport) (s : OdooAPI) (model method : String) (args : List Val),
      coreOf (xmlrpc_execute t s model method args).2 = coreOf s) ∧
    (∀ (t : JsonrpcTransport) (s : OdooAPI) (model method : String) (args : List Val),
      coreOf (jsonrpc_execute t s model method args).2 = coreOf s) ∧
    (∀ (t : XmlrpcTransport) (s : OdooAPI) (d : Val),
      coreOf (create_lead_xmlrpc t s d).2 = coreOf s) ∧
    (∀ (t : JsonrpcTransport) (s : OdooAPI) (d : Val),
      coreOf (create_lead_jsonrpc t s d).2 = coreOf s) ∧
    (∀ (t : XmlrpcTransport) (s : OdooAPI) (lead_id : Int) (fields : Val),
      coreOf (read_lead_xmlrpc t s lead_id fields).2 = coreOf s) ∧
    (∀ (t : JsonrpcTransport) (s : OdooAPI) (lead_id : Int) (fields : Val),
      coreOf (read_lead_jsonrpc t s lead_id fields).2 = coreOf s) ∧
    (∀ (t : XmlrpcTransport) (s : OdooAPI) (lead_id : Int) (d : Val),
      coreOf (update_lead_xmlrpc t s lead_id d).2 = coreOf s) ∧
    (∀ (t : JsonrpcTransport) (s : OdooAPI) (lead_id : Int) (d : Val),
      coreOf (update_lead_jsonrpc t s lead_id d).2 = coreOf s) ∧
    (∀ (t : XmlrpcTransport) (s : OdooAPI) (lead_id : Int),
      coreOf (delete_lead_xmlrpc t s lead_id).2 = coreOf s) ∧
    (∀ (t : JsonrpcTransport) (s : OdooAPI) (lead_id : Int),
      coreOf (delete_lead_jsonrpc t s lead_id).2 = coreOf s) ∧
    (∀ (t : XmlrpcTransport) (s : OdooAPI) (domain offset limit order : Val),
      coreOf (search_leads_xmlrpc t s domain offset limit order).2 = coreOf s) ∧
    (∀ (t : JsonrpcTransport) (s : OdooAPI) (domain offset limit order : Val),
      coreOf (search_leads_jsonrpc t s domain offset limit order).2 = coreOf s) ∧
    (∀ (t : XmlrpcTransport) (s : OdooAPI) (domain fields offset limit order : Val),
      coreOf (search_read_leads_xmlrpc t s domain fields offset limit order).2 =
        coreOf s) ∧
    (∀ (t : JsonrpcTransport) (s : OdooAPI) (domain fields offset limit order : Val),
      coreOf (search_read_leads_jsonrpc t s domain fields offset limit order).2 =
        coreOf s) ∧
    (∀ (t : XmlrpcTransport) (s : OdooAPI) (ds : List Val),
      coreOf (create_leads_batch_xmlrpc t s ds).2 = coreOf s) ∧
    (∀ (t : JsonrpcTransport) (s : OdooAPI) (ds : List Val),
      coreOf (create_leads_batch_jsonrpc t s ds).2 = coreOf s) ∧
    (∀ (t : XmlrpcTransport) (s : OdooAPI) (us : List (Int × Val)),
      coreOf (update_leads_batch_xmlrpc t s us).2 = coreOf s) ∧
    (∀ (t : JsonrpcTransport) (s : OdooAPI) (us : List (Int × Val)),
      coreOf (update_leads_batch_jsonrpc t s us).2 = coreOf s) ∧
    (∀ (t : XmlrpcTransport) (s : OdooAPI) (ids : List Int),
      coreOf (delete_leads_batch_xmlrpc t s ids).2 = coreOf s) ∧
    (∀ (t : JsonrpcTransport) (s : OdooAPI) (ids : List Int),
      coreOf (delete_leads_batch_jsonrpc t s ids).2 = coreOf s)) ∧
    ((∀ (t : XmlrpcTransport) (s : OdooAPI) (model method : String) (args : List Val),
      truthy s.uid = true → s.xmlrpc_models = true →
      (xmlrpc_execute t s model method args).2 = s) ∧
    (∀ (t : JsonrpcTransport) (s : OdooAPI) (model method : String) (args : List Val),
      truthy s.uid = true →
      (jsonrpc_execute t s model method args).2 = s) ∧
    (∀ (t : XmlrpcTransport) (s : OdooAPI) (lead_id : Int) (d : Val),
      truthy s.uid = true → s.xmlrpc_models = true →
      (update_lead_xmlrpc t s lead_id d).2 = s) ∧
    (∀ (t : XmlrpcTransport) (s : OdooAPI) (ds : List Val),
      truthy s.uid = true → s.xmlrpc_models = true →
      (create_leads_batch_xmlrpc t s ds).2 = s) ∧
    (∀ (t : XmlrpcTransport) (s : OdooAPI) (us : List (Int × Val)),
      truthy s.uid = true → s.xmlrpc_models = true →
      (update_leads_batch_xmlrpc t s us).2 = s) ∧
    (∀ (t : XmlrpcTransport) (s : OdooAPI) (ids : List Int),
      truthy s.uid = true → s.xmlrpc_models = true →
      (delete_leads_batch_xmlrpc t s ids).2 = s) ∧
    (∀ (t : JsonrpcTransport) (s : OdooAPI) (ds : List Val),
      truthy s.uid = true →
      (create_leads_batch_jsonrpc t s ds).2 = s) ∧
    (∀ (t : JsonrpcTransport) (s : OdooAPI) (ids : List Int),
      truthy s.uid = true →
      (delete_leads_batch_jsonrpc t s ids).2 = s)) := by
  refine ⟨frame_core_all, ?_, ?_, ?_, ?_, ?_, ?_, ?_, ?_⟩
  · exact xmlrpc_execute_snd_of_auth
  · exact jsonrpc_execute_snd_of_auth
  · intro t s lead_id d h1 h2
    exact xmlrpc_execute_snd_of_auth t s "crm.lead" "write"
      [Val.vlist [Val.vint lead_id], d] h1 h2
  · intro t s ds h1 h2
    exact batchListGo_state_fix _ s (fun d =>
      xmlrpc_execute_snd_of_auth t s "crm.lead" "create" [Val.vlist [d]] h1 h2) ds []
  · intro t s us h1 h2
    exact batchDictGo_state_fix Prod.fst _ s (fun it =>
      xmlrpc_execute_snd_of_auth t s "crm.lead" "write"
        [Val.vlist [Val.vint it.1], it.2] h1 h2) us []
  · intro t s ids h1 h2
    exact batchDictGo_state_fix (fun i => i) _ s (fun i =>
      xmlrpc_execute_snd_of_auth t s "crm.lead" "unlink"
        [Val.vlist [Val.vint i]] h1 h2) ids []
  · intro t s ds h1
    exact batchListGo_state_fix _ s (fun d =>
      jsonrpc_execute_snd_of_auth t s "crm.lead" "create" [Val.vlist [d]] h1) ds []
  · intro t s ids h1
    exact batchDictGo_state_fix (fun i => i) _ s (fun i =>
      jsonrpc_execute_snd_of_auth t s "crm.lead" "unlink"
        [Val.vlist [Val.vint i]] h1) ids []

/-- Witness for C10's second half at concrete transports on the
authenticated session. -/
theorem claim_C10_witness :
    (xmlrpc_execute tOk sAuth "crm.lead" "create" [Val.vdict []]).2 = sAuth ∧
    (jsonrpc_execute jOk sAuth "crm.lead" "create" [Val.vdict []]).2 = sAuth ∧
    (delete_leads_batch_xmlrpc tOk sAuth [1, 2]).2 = sAuth :=
  ⟨claim_C10.2.1 tOk sAuth "crm.lead" "create" [Val.vdict []] rfl rfl,
   claim_C10.2.2.1 jOk sAuth "crm.lead" "create" [Val.vdict []] rfl,
   claim_C10.2.2.2.2.2.2.1 tOk sAuth [1, 2] rfl rfl⟩
